import Mathlib

/-!
Verification development for the fintran validation framework and pipeline
orchestrator. The Python sources under `src/fintran/` are shallowly embedded:
pure functions become Lean functions, raised exceptions become `Except`
errors, Python `float`/`Decimal` numerics are modelled over `ℚ`, and the
polars DataFrame is modelled as an ordered list of named, typed columns.
-/

namespace Fintran

/-- A Python `datetime.date` value; Python orders dates lexicographically
on (year, month, day). -/
structure PyDate where
  year : Nat
  month : Nat
  day : Nat
deriving DecidableEq, Repr

/-- Python date comparison `a < b` (lexicographic). -/
def PyDate.lt (a b : PyDate) : Bool :=
  decide (a.year < b.year ∨ (a.year = b.year ∧
    (a.month < b.month ∨ (a.month = b.month ∧ a.day < b.day))))

/-- Scalar/list/dict values as they occur in Python metadata dicts and
declarative-configuration `params` maps (a JSON-like universe). -/
inductive PyValue where
  | str (s : String)
  | int (n : Int)
  | num (q : ℚ)
  | bool (b : Bool)
  | date (d : PyDate)
  | null
  | list (xs : List PyValue)
  | dict (kvs : List (String × PyValue))

/-- A naive `datetime.datetime` value (no timezone), as produced by
`datetime.now()` / `datetime.utcnow()` in `pipeline.py` and `report.py`. -/
structure DateTime where
  year : Nat
  month : Nat
  day : Nat
  hour : Nat
  minute : Nat
  second : Nat
  microsecond : Nat
deriving DecidableEq, Repr

/-- The field-range invariants that the Python `datetime` constructor enforces. -/
def DateTime.Valid (t : DateTime) : Prop :=
  1 ≤ t.year ∧ t.year ≤ 9999 ∧ 1 ≤ t.month ∧ t.month ≤ 12 ∧
  1 ≤ t.day ∧ t.day ≤ 31 ∧ t.hour ≤ 23 ∧ t.minute ≤ 59 ∧
  t.second ≤ 59 ∧ t.microsecond ≤ 999999

instance (t : DateTime) : Decidable t.Valid := by
  unfold DateTime.Valid; infer_instance

/-- Exactly `w` decimal digit characters of `n`, most significant first (zero padded):
the fixed-width fields of `datetime.isoformat()`. -/
def padNum : Nat → Nat → List Char
  | 0, _ => []
  | w + 1, n => Nat.digitChar (n / 10 ^ w % 10) :: padNum w n

/-- Read exactly `w` decimal digit characters, folding them onto `acc`. -/
def readNum : Nat → Nat → List Char → Option (Nat × List Char)
  | 0, acc, cs => some (acc, cs)
  | _ + 1, _, [] => none
  | w + 1, acc, c :: cs =>
    if c.isDigit then readNum w (acc * 10 + (c.toNat - 48)) cs else none

/-- Consume one expected literal character. -/
def expectChar (c : Char) : List Char → Option (List Char)
  | [] => none
  | c' :: cs => if c' = c then some cs else none

/-- Character stream of `datetime.isoformat()`: `YYYY-MM-DDTHH:MM:SS`,
with `.ffffff` appended exactly when the microsecond field is nonzero. -/
def isoChars (t : DateTime) : List Char :=
  padNum 4 t.year ++ '-' ::
    (padNum 2 t.month ++ '-' ::
      (padNum 2 t.day ++ 'T' ::
        (padNum 2 t.hour ++ ':' ::
          (padNum 2 t.minute ++ ':' ::
            (padNum 2 t.second ++
              (if t.microsecond = 0 then []
               else '.' :: padNum 6 t.microsecond))))))

/-- Model of `datetime.isoformat()` for naive datetimes (report.py line 101). -/
def DateTime.isoformat (t : DateTime) : String :=
  ⟨isoChars t⟩

/-- Parser for the exact grammar `isoformat` emits. The Python
`datetime.fromisoformat` accepts a superset of this grammar; only the
image of `isoformat` matters for the round-trip property. A parse failure
models the `ValueError` Python raises. -/
def parseIsoChars (cs : List Char) : Option DateTime :=
  (readNum 4 0 cs).bind fun (y, cs) =>
  (expectChar '-' cs).bind fun cs =>
  (readNum 2 0 cs).bind fun (mo, cs) =>
  (expectChar '-' cs).bind fun cs =>
  (readNum 2 0 cs).bind fun (d, cs) =>
  (expectChar 'T' cs).bind fun cs =>
  (readNum 2 0 cs).bind fun (hh, cs) =>
  (expectChar ':' cs).bind fun cs =>
  (readNum 2 0 cs).bind fun (mi, cs) =>
  (expectChar ':' cs).bind fun cs =>
  (readNum 2 0 cs).bind fun (s, cs) =>
  if cs = [] then some ⟨y, mo, d, hh, mi, s, 0⟩
  else
    (expectChar '.' cs).bind fun cs =>
    (readNum 6 0 cs).bind fun (us, cs) =>
    if cs = [] then some ⟨y, mo, d, hh, mi, s, us⟩ else none

/-- Model of `datetime.fromisoformat` (report.py line 183), on `isoformat` output. -/
def DateTime.fromisoformat (s : String) : Option DateTime :=
  parseIsoChars s.data

/-- Model of `ValidationResult` (result.py): outcome of one validation check.
`metadata` is the string-keyed dict of arbitrary values. -/
structure ValidationResult where
  is_valid : Bool
  errors : List String := []
  warnings : List String := []
  validator_name : String := ""
  metadata : List (String × PyValue) := []

/-- Model of `ValidationResult.has_errors` (result.py line 83). -/
def ValidationResult.has_errors (r : ValidationResult) : Bool :=
  r.errors.length > 0

/-- Model of `ValidationResult.has_warnings` (result.py line 101). -/
def ValidationResult.has_warnings (r : ValidationResult) : Bool :=
  r.warnings.length > 0

/-- Model of `ValidationReport` (report.py). The count fields are declared `int` in
the Python dataclass, hence `Int` here. -/
structure ValidationReport where
  results : List ValidationResult
  timestamp : DateTime
  total_validators : Int
  passed : Int
  failed : Int
  warnings_count : Int

/-- Model of `ValidationReport.is_valid` (report.py line 72): `failed == 0`. -/
def ValidationReport.is_valid (r : ValidationReport) : Bool :=
  r.failed == 0

/-- One entry of the `results` list in the dict built by
`ValidationReport.to_json` (report.py lines 109-118). -/
structure ResultJson where
  validator_name : String
  is_valid : Bool
  errors : List String
  warnings : List String
  metadata : List (String × PyValue)

/-- The `summary` sub-dict built by `ValidationReport.to_json`
(report.py lines 102-108). -/
structure SummaryJson where
  total_validators : Int
  passed : Int
  failed : Int
  warnings_count : Int
  is_valid : Bool

/-- The dict built by `ValidationReport.to_json` (report.py lines 100-119). -/
structure ReportJson where
  timestamp : String
  summary : SummaryJson
  results : List ResultJson

/-- Model of `ValidationReport.to_json` (report.py lines 89-119). -/
def ValidationReport.to_json (r : ValidationReport) : ReportJson :=
  { timestamp := r.timestamp.isoformat
    summary :=
      { total_validators := r.total_validators
        passed := r.passed
        failed := r.failed
        warnings_count := r.warnings_count
        is_valid := r.is_valid }
    results := r.results.map fun res =>
      { validator_name := res.validator_name
        is_valid := res.is_valid
        errors := res.errors
        warnings := res.warnings
        metadata := res.metadata } }

/-- Model of `ValidationReport.from_json` (report.py lines 166-218) on the nested
`summary` shape that `to_json` emits (`"summary" in data` holds for every
`to_json` output, so the flat backward-compatibility branch is never taken
on that path; `r.get("metadata", {})` always finds the key). Returns
`none` when the timestamp string does not parse, modelling the
`ValueError` that `datetime.fromisoformat` raises. -/
def ValidationReport.from_json (data : ReportJson) : Option ValidationReport :=
  (DateTime.fromisoformat data.timestamp).map fun timestamp =>
    { results := data.results.map fun r =>
        { validator_name := r.validator_name
          is_valid := r.is_valid
          errors := r.errors
          warnings := r.warnings
          metadata := r.metadata }
      timestamp := timestamp
      total_validators := data.summary.total_validators
      passed := data.summary.passed
      failed := data.summary.failed
      warnings_count := data.summary.warnings_count }

/-- Model of `create_report` (report.py lines 221-256). The Python function stamps
the report with `datetime.utcnow()`; the clock reading is passed in
explicitly here. -/
def create_report (results : List ValidationResult) (timestamp : DateTime) :
    ValidationReport :=
  { results := results
    timestamp := timestamp
    total_validators := Int.ofNat results.length
    passed := Int.ofNat (results.countP fun r => r.is_valid)
    failed := Int.ofNat (results.countP fun r => !r.is_valid)
    warnings_count := Int.ofNat (results.map fun r => r.warnings.length).sum }

/-- Model of `ValidationMode` (pipeline.py lines 17-26). -/
inductive ValidationMode where
  | FAIL_FAST
  | CONTINUE
deriving DecidableEq, Repr

/-- Model of `ValidationPipeline` (pipeline.py lines 29-67), parametric in the
validator representation `V` (a validator is anything exposing
`validate(df) -> ValidationResult`; the interpretation is supplied to
`run`). -/
structure ValidationPipeline (V : Type) where
  validators : List V
  mode : ValidationMode

/-- The validator loop of `ValidationPipeline.run` (pipeline.py lines
100-107): invoke each validator in declared order, appending its Result;
in FAIL_FAST mode break right after appending a Result with errors. -/
def runValidatorsLoop {V DF : Type} (validate : V → DF → ValidationResult)
    (mode : ValidationMode) : List V → DF → List ValidationResult
  | [], _ => []
  | v :: vs, df =>
    let result := validate v df
    if mode = ValidationMode.FAIL_FAST ∧ result.has_errors then [result]
    else result :: runValidatorsLoop validate mode vs df

/-- Model of `ValidationPipeline.run` (pipeline.py lines 69-121). The Python method
stamps the report with `datetime.now()`; the clock reading is passed in
explicitly here. -/
def ValidationPipeline.run {V DF : Type} (validate : V → DF → ValidationResult)
    (p : ValidationPipeline V) (df : DF) (timestamp : DateTime) :
    ValidationReport :=
  if p.validators.length = 0 then
    { results := []
      timestamp := timestamp
      total_validators := 0
      passed := 0
      failed := 0
      warnings_count := 0 }
  else
    let results := runValidatorsLoop validate p.mode p.validators df
    { results := results
      timestamp := timestamp
      total_validators := Int.ofNat results.length
      passed := Int.ofNat (results.countP fun r => r.is_valid)
      failed := Int.ofNat (results.countP fun r => !r.is_valid)
      warnings_count := Int.ofNat (results.map fun r => r.warnings.length).sum }

/-- Claim C1, stated in the words of the spec: the Results of the validators
run up to and including the first one whose Result has errors (all of
them when none fails). -/
def takeThroughFirstError : List ValidationResult → List ValidationResult
  | [] => []
  | r :: rs => if r.has_errors then [r] else r :: takeThroughFirstError rs

/-- One value of a polars column under the IR contract: strings (account,
currency, description, reference), Decimal amounts (modelled over `ℚ`),
dates, and nulls. -/
inductive Cell where
  | str (s : String)
  | num (q : ℚ)
  | date (d : PyDate)
  | null
deriving DecidableEq, Repr

/-- A polars DataFrame: an ordered sequence of named columns. All columns
of a real DataFrame have equal length (`DataFrame.WF`). -/
structure DataFrame where
  cols : List (String × List Cell)
deriving DecidableEq, Repr

/-- Model of `df.columns`. -/
def DataFrame.columns (df : DataFrame) : List String :=
  df.cols.map Prod.fst

/-- Column lookup by name (first match, as in polars). -/
def DataFrame.getCol (df : DataFrame) (name : String) : Option (List Cell) :=
  df.cols.lookup name

/-- Model of `len(df)` / `df.height`. -/
def DataFrame.height (df : DataFrame) : Nat :=
  match df.cols with
  | [] => 0
  | c :: _ => c.2.length

/-- All columns have the height of the first: the polars invariant. -/
def DataFrame.WF (df : DataFrame) : Prop :=
  ∀ c ∈ df.cols, c.2.length = df.height

/-- The value of column `name` in row `i` (`Cell.null` when out of range;
under `WF` every in-range access hits the column). -/
def DataFrame.cell (df : DataFrame) (name : String) (i : Nat) : Cell :=
  match df.getCol name with
  | some col => col.getD i Cell.null
  | none => Cell.null

/-- Kleene OR of polars boolean columns (`none` is null). -/
def kOr : Option Bool → Option Bool → Option Bool
  | some true, _ => some true
  | _, some true => some true
  | some false, some false => some false
  | _, _ => none

/-- Kleene AND of polars boolean columns (`none` is null). -/
def kAnd : Option Bool → Option Bool → Option Bool
  | some false, _ => some false
  | _, some false => some false
  | some true, some true => some true
  | _, _ => none

/-- Insert into a `le`-sorted list. -/
def insertSorted {α : Type} (le : α → α → Bool) (x : α) : List α → List α
  | [] => [x]
  | y :: ys => if le x y then x :: y :: ys else y :: insertSorted le x ys

/-- Stable comparison sort, modelling both `sorted(...)` over homogeneous
values and polars `Series.sort`. -/
def insertionSort {α : Type} (le : α → α → Bool) : List α → List α
  | [] => []
  | x :: xs => insertSorted le x (insertionSort le xs)

/-- First-occurrence distinct values: the model of `Series.unique()` and
of the polars group-key order. (polars does not promise an order without
`maintain_order`; the choice affects only message text, never counts.) -/
def firstUniques {α : Type} [DecidableEq α] (l : List α) : List α :=
  l.foldl (fun acc x => if x ∈ acc then acc else acc ++ [x]) []

/-- Python `str()` of a polars cell value as it is interpolated into error
messages (`None` for nulls; the decimal rendering of amounts is
approximated — no theorem below depends on it). -/
def Cell.pyStr : Cell → String
  | Cell.str s => s
  | Cell.num q =>
    if q.den = 1 then toString q.num
    else toString q.num ++ "/" ++ toString q.den
  | Cell.date d => ⟨padNum 4 d.year ++ '-' :: (padNum 2 d.month ++ '-' :: padNum 2 d.day)⟩
  | Cell.null => "None"

/-- The context dict a `PipelineError` carries (core/exceptions.py lines
266-289): each keyword argument lands in the context exactly when it was
passed. -/
structure PipelineContext where
  step : Option String := none
  input_path : Option String := none
  output_path : Option String := none
  transform_index : Option Nat := none
  transform_type : Option String := none
  transform_count : Option Nat := none
deriving DecidableEq, Repr

/-- Python exceptions escaping embedded code. `readerError`, `writerError`,
`transformError`, `validationError`, `pipelineError` and `fintranError`
model the `FintranError` hierarchy of core/exceptions.py; `typeError` and
`valueError` model the Python builtins; `otherError` models any other
non-fintran exception. -/
inductive PyExc where
  | typeError (msg : String)
  | valueError (msg : String)
  | readerError (msg : String)
  | writerError (msg : String)
  | transformError (msg : String)
  | validationError (msg : String)
  | pipelineError (msg : String) (context : PipelineContext)
  | fintranError (msg : String)
  | otherError (msg : String)
deriving DecidableEq, Repr

/-- Model of `isinstance(e, FintranError)`. -/
def PyExc.isFintranError : PyExc → Bool
  | .readerError _ | .writerError _ | .transformError _ | .validationError _
  | .pipelineError _ _ | .fintranError _ => true
  | .typeError _ | .valueError _ | .otherError _ => false

/-- The message of the exception, standing in for Python `str(e)` when an
error is interpolated into a wrapping message (the `FintranError.__str__`
context suffix is not reproduced; no theorem depends on message text). -/
def PyExc.message : PyExc → String
  | .typeError m | .valueError m | .readerError m | .writerError m
  | .transformError m | .validationError m | .pipelineError m _
  | .fintranError m | .otherError m => m

/-- Python `sorted` applied to the values of a string column holding
nulls: CPython timsort compares `None` with its neighbour and raises
`TypeError` whenever the list has at least two elements and contains a
null; otherwise it sorts the strings. -/
def pySortedCells (xs : List Cell) : Except PyExc (List Cell) :=
  if 2 ≤ xs.length ∧ xs.any fun c => c = Cell.null then
    .error (.typeError
      "\x27<\x27 not supported between instances of \x27NoneType\x27 and \x27str\x27")
  else
    .ok (insertionSort (fun a b => a.pyStr ≤ b.pyStr) xs)

/-- Model of `PositiveAmountsValidator` (business/amounts.py): holds the configured
regex pattern strings. The compiled regex engine itself (Python `re` /
polars `str.contains`) is external; `validate` receives it as an explicit
`search : pattern → subject → Bool` parameter. -/
structure PositiveAmountsValidator where
  account_patterns : List String
deriving DecidableEq, Repr

/-- Model of `PositiveAmountsValidator.__init__` (amounts.py lines 44-67):
`ValueError` on an empty pattern list. -/
def PositiveAmountsValidator.mk? (account_patterns : List String) :
    Except PyExc PositiveAmountsValidator :=
  if account_patterns.isEmpty then
    .error (.valueError "account_patterns must contain at least one pattern")
  else
    .ok ⟨account_patterns⟩

/-- Model of `pl.col(...).str.contains(pattern)` on one cell: null in, null out. A
non-string cell cannot occur for the IR `account` column. -/
def strContains (search : String → String → Bool) (pattern : String) :
    Cell → Option Bool
  | Cell.str s => some (search pattern s)
  | _ => none

/-- Model of `pl.col("amount") <= 0` on one cell: null in, null out. A non-numeric
cell cannot occur for the IR `amount` column. -/
def cellLeZero : Cell → Option Bool
  | Cell.num q => some (decide (q ≤ 0))
  | _ => none

/-- The account mask of amounts.py lines 122-124: start from `pl.lit(False)`
and fold Kleene OR of `str.contains` over the configured patterns. -/
def accountMask (search : String → String → Bool) (patterns : List String)
    (c : Cell) : Option Bool :=
  patterns.foldl (fun m p => kOr m (strContains search p c)) (some false)

/-- The row indices kept by `df_with_index.filter(mask & (amount <= 0))`
(amounts.py line 127): polars `filter` keeps exactly the rows whose mask
is true, dropping null-mask rows. -/
def positiveAmountsViolations (search : String → String → Bool)
    (v : PositiveAmountsValidator) (df : DataFrame) : List Nat :=
  (List.range df.height).filter fun i =>
    (kAnd (accountMask search v.account_patterns (df.cell "account" i))
      (cellLeZero (df.cell "amount" i))).getD false

/-- Model of `PositiveAmountsValidator.validate` (amounts.py lines 69-162). -/
def PositiveAmountsValidator.validate (search : String → String → Bool)
    (v : PositiveAmountsValidator) (df : DataFrame) : ValidationResult :=
  if "account" ∉ df.columns then
    { is_valid := false
      errors := ["Required field \x27account\x27 not found in DataFrame"]
      validator_name := "PositiveAmountsValidator" }
  else if "amount" ∉ df.columns then
    { is_valid := false
      errors := ["Required field \x27amount\x27 not found in DataFrame"]
      validator_name := "PositiveAmountsValidator" }
  else
    let violations := positiveAmountsViolations search v df
    if violations.length = 0 then
      { is_valid := true, validator_name := "PositiveAmountsValidator" }
    else
      { is_valid := false
        errors := violations.map fun i =>
          let acct := (df.cell "account" i).pyStr
          let amt := (df.cell "amount" i).pyStr
          s!"Account {acct} has non-positive amount {amt} (row: {i})"
        validator_name := "PositiveAmountsValidator"
        metadata :=
          [("violations", PyValue.list (violations.map fun i =>
              PyValue.dict
                [("row_index", PyValue.int (Int.ofNat i)),
                 ("account", PyValue.str (df.cell "account" i).pyStr),
                 ("amount", PyValue.str (df.cell "amount" i).pyStr)])),
           ("violation_count", PyValue.int (Int.ofNat violations.length))] }

/-- Model of `CurrencyConsistencyValidator` state after `__init__`
(currency.py lines 46-78). -/
structure CurrencyConsistencyValidator where
  group_by : Option (List String)
  validate_whole_df : Bool
deriving DecidableEq, Repr

/-- The three shapes the `group_by` constructor argument can take: the
`_DEFAULT` sentinel (argument not provided), an explicit `None`, or an
explicit list. -/
inductive GroupByArg where
  | unspecified
  | explicitNone
  | fields (fs : List String)

/-- Model of `CurrencyConsistencyValidator.__init__` (currency.py lines 46-78). -/
def CurrencyConsistencyValidator.mk? :
    GroupByArg → Except PyExc CurrencyConsistencyValidator
  | .fields [] => .error (.valueError "group_by must contain at least one field or be None")
  | .unspecified => .ok ⟨some ["account"], false⟩
  | .explicitNone => .ok ⟨none, true⟩
  | .fields fs => .ok ⟨some fs, false⟩

/-- Model of `CurrencyConsistencyValidator._validate_whole_dataframe`
(currency.py lines 194-228). `sorted(unique_currencies)` is Python
`sorted` on raw column values, so mixed null/string data raises
`TypeError` (unlike the grouped path, which maps nulls to the string
`"NULL"` before sorting). -/
def CurrencyConsistencyValidator.validateWholeDataframe (df : DataFrame) :
    Except PyExc ValidationResult :=
  let unique_currencies := firstUniques ((df.getCol "currency").getD [])
  let currency_count := unique_currencies.length
  if currency_count ≤ 1 then
    .ok { is_valid := true, validator_name := "CurrencyConsistencyValidator" }
  else
    (pySortedCells unique_currencies).map fun sortedCells =>
      let currency_list := String.intercalate ", " (sortedCells.map Cell.pyStr)
      let error_msg := "DataFrame has multiple currencies: " ++ currency_list
        ++ " (" ++ toString currency_count ++ " distinct currencies)"
      { is_valid := false
        errors := [error_msg]
        validator_name := "CurrencyConsistencyValidator"
        metadata :=
          [("currencies", PyValue.list (unique_currencies.map fun c =>
              match c with
              | Cell.null => PyValue.null
              | c => PyValue.str c.pyStr)),
           ("currency_count", PyValue.int (Int.ofNat currency_count))] }

/-- The group key of row `i` under grouping fields `fields`. -/
def groupKey (df : DataFrame) (fields : List String) (i : Nat) : List Cell :=
  fields.map fun f => df.cell f i

/-- The groups with more than one distinct currency, with their distinct
currency cells: `df.group_by(fields).agg(n_unique, unique)` filtered to
`currency_count > 1` (currency.py lines 139-147). Group and within-group
orders are first-occurrence (polars promises no order; only message
text depends on it). -/
def currencyViolationGroups (df : DataFrame) (fields : List String) :
    List (List Cell × List Cell) :=
  (firstUniques ((List.range df.height).map (groupKey df fields))).filterMap
    fun key =>
      let currencies := firstUniques
        (((List.range df.height).filter fun i =>
            decide (groupKey df fields i = key)).map fun i =>
          df.cell "currency" i)
      if currencies.length > 1 then some (key, currencies) else none

/-- The error message for one violating group (currency.py lines 159-174):
`NULL` stands in for a null currency, and the distinct currency strings
are sorted. -/
def currencyGroupErrorMsg (fields : List String) (key : List Cell)
    (currencies : List Cell) : String :=
  let group_id := String.intercalate ", "
    ((fields.zip key).map fun fc => fc.1 ++ "=" ++ fc.2.pyStr)
  let currency_strs := currencies.map fun c =>
    match c with
    | Cell.null => "NULL"
    | c => c.pyStr
  let currency_list := String.intercalate ", "
    (insertionSort (fun a b => a ≤ b) currency_strs)
  "Group (" ++ group_id ++ ") has multiple currencies: " ++ currency_list
    ++ " (" ++ toString currencies.length ++ " distinct currencies)"

/-- Model of `CurrencyConsistencyValidator.validate` (currency.py lines 80-192). -/
def CurrencyConsistencyValidator.validate (v : CurrencyConsistencyValidator)
    (df : DataFrame) : Except PyExc ValidationResult :=
  if "currency" ∉ df.columns then
    .ok { is_valid := false
          errors := ["Required field \x27currency\x27 not found in DataFrame"]
          validator_name := "CurrencyConsistencyValidator" }
  else if v.validate_whole_df then
    CurrencyConsistencyValidator.validateWholeDataframe df
  else
    let gb := v.group_by.getD []
    let missing_fields := gb.filter fun f => f ∉ df.columns
    if missing_fields ≠ [] then
      .ok { is_valid := false
            errors := missing_fields.map fun f =>
              "Required grouping field \x27" ++ f ++ "\x27 not found in DataFrame"
            validator_name := "CurrencyConsistencyValidator" }
    else
      let violations := currencyViolationGroups df gb
      if violations.length = 0 then
        .ok { is_valid := true, validator_name := "CurrencyConsistencyValidator" }
      else
        .ok { is_valid := false
              errors := violations.map fun kv =>
                currencyGroupErrorMsg gb kv.1 kv.2
              validator_name := "CurrencyConsistencyValidator"
              metadata :=
                [("violations", PyValue.list (violations.map fun kv =>
                    PyValue.dict
                      [("group", PyValue.dict ((gb.zip kv.1).map fun fc =>
                          (fc.1, PyValue.str fc.2.pyStr))),
                       ("currencies", PyValue.list (kv.2.map fun c =>
                          match c with
                          | Cell.null => PyValue.null
                          | c => PyValue.str c.pyStr)),
                       ("currency_count", PyValue.int (Int.ofNat kv.2.length))])),
                 ("groups_with_violations", PyValue.int (Int.ofNat violations.length))] }

/-- Model of `DateRangeValidator` state after `__init__` (dates.py lines 49-82). -/
structure DateRangeValidator where
  min_date : Option PyDate
  max_date : Option PyDate
deriving DecidableEq, Repr

/-- Model of `DateRangeValidator.__init__` (dates.py lines 49-82). -/
def DateRangeValidator.mk? (min_date max_date : Option PyDate) :
    Except PyExc DateRangeValidator :=
  match min_date, max_date with
  | none, none =>
    .error (.valueError "At least one of min_date or max_date must be specified")
  | _, _ =>
    if min_date.isSome ∧ max_date.isSome ∧
        PyDate.lt (max_date.getD ⟨0, 0, 0⟩) (min_date.getD ⟨0, 0, 0⟩) then
      .error (.valueError "min_date must be <= max_date")
    else
      .ok ⟨min_date, max_date⟩

/-- Model of `pl.col("date") < bound` on one cell (null in, null out). -/
def cellDateLt (c : Cell) (bound : PyDate) : Option Bool :=
  match c with
  | Cell.date d => some (PyDate.lt d bound)
  | _ => none

/-- Model of `pl.col("date") > bound` on one cell (null in, null out). -/
def cellDateGt (c : Cell) (bound : PyDate) : Option Bool :=
  match c with
  | Cell.date d => some (PyDate.lt bound d)
  | _ => none

/-- The violations mask of dates.py lines 124-133 for row `i`: Kleene OR
of the out-of-bound comparisons for whichever bounds are configured.
(The constructor guarantees at least one bound; with none configured
polars `filter(None)` would raise, modelled as an all-null mask.) -/
def dateViolationMask (v : DateRangeValidator) (c : Cell) : Option Bool :=
  match v.min_date, v.max_date with
  | some mn, some mx => kOr (cellDateLt c mn) (cellDateGt c mx)
  | some mn, none => cellDateLt c mn
  | none, some mx => cellDateGt c mx
  | none, none => none

/-- The row indices kept by `df.with_row_index.filter(violations_mask)`
(dates.py line 136). -/
def dateRangeViolations (v : DateRangeValidator) (df : DataFrame) : List Nat :=
  (List.range df.height).filter fun i =>
    (dateViolationMask v (df.cell "date" i)).getD false

/-- The per-row error message of dates.py lines 148-165. -/
def dateRangeErrorMsg (v : DateRangeValidator) (df : DataFrame) (i : Nat) :
    String :=
  let c := df.cell "date" i
  let dv := c.pyStr
  let inner :=
    match v.min_date, c with
    | some mn, Cell.date d =>
      if PyDate.lt d mn then
        "Date " ++ dv ++ " is before minimum date " ++ (Cell.date mn).pyStr
      else
        match v.max_date, c with
        | some mx, Cell.date d =>
          if PyDate.lt mx d then
            "Date " ++ dv ++ " is after maximum date " ++ (Cell.date mx).pyStr
          else "Date " ++ dv ++ " is out of range"
        | _, _ => "Date " ++ dv ++ " is out of range"
    | _, _ =>
      match v.max_date, c with
      | some mx, Cell.date d =>
        if PyDate.lt mx d then
          "Date " ++ dv ++ " is after maximum date " ++ (Cell.date mx).pyStr
        else "Date " ++ dv ++ " is out of range"
      | _, _ => "Date " ++ dv ++ " is out of range"
  s!"Row {i}: " ++ inner

/-- Model of `DateRangeValidator.validate` (dates.py lines 84-184). -/
def DateRangeValidator.validate (v : DateRangeValidator) (df : DataFrame) :
    ValidationResult :=
  if "date" ∉ df.columns then
    { is_valid := false
      errors := ["Required field \x27date\x27 not found in DataFrame"]
      validator_name := "DateRangeValidator" }
  else
    let violations := dateRangeViolations v df
    if violations.length = 0 then
      { is_valid := true, validator_name := "DateRangeValidator" }
    else
      { is_valid := false
        errors := violations.map fun i => dateRangeErrorMsg v df i
        validator_name := "DateRangeValidator"
        metadata :=
          [("violations", PyValue.list (violations.map fun i =>
              PyValue.dict
                [("row_index", PyValue.int (Int.ofNat i)),
                 ("date", PyValue.str (df.cell "date" i).pyStr),
                 ("min_date", (v.min_date.map fun d =>
                    PyValue.str (Cell.date d).pyStr).getD PyValue.null),
                 ("max_date", (v.max_date.map fun d =>
                    PyValue.str (Cell.date d).pyStr).getD PyValue.null)])),
           ("violation_count", PyValue.int (Int.ofNat violations.length))] }

/-- Model of `OutlierDetectionValidator` state after `__init__`
(quality/outliers.py lines 51-77). The Python `float` threshold is
modelled over `ℚ`. -/
structure OutlierDetectionValidator where
  method : String
  threshold : ℚ
deriving DecidableEq, Repr

/-- Model of `OutlierDetectionValidator.__init__` (outliers.py lines 51-77). -/
def OutlierDetectionValidator.mk? (method : String) (threshold : ℚ) :
    Except PyExc OutlierDetectionValidator :=
  if method ≠ "zscore" ∧ method ≠ "iqr" ∧ method ≠ "percentile" then
    .error (.valueError
      ("method must be \x27zscore\x27, \x27iqr\x27, or \x27percentile\x27, got: " ++ method))
  else if threshold ≤ 0 then
    .error (.valueError "threshold must be positive")
  else if method = "percentile" ∧ (threshold < 0 ∨ threshold > 100) then
    .error (.valueError "percentile threshold must be between 0 and 100")
  else
    .ok ⟨method, threshold⟩

/-- Round half away from zero, as Rust `f64::round` does (for the
nonnegative arguments that occur here this is `⌊q + 1/2⌋`). -/
def roundHalfUp (q : ℚ) : Int :=
  ⌊q + 1 / 2⌋

/-- The non-null numeric values of the `amount` column (polars aggregate
functions drop nulls). -/
def dfAmounts (df : DataFrame) : List ℚ :=
  ((df.getCol "amount").getD []).filterMap fun c =>
    match c with
    | Cell.num q => some q
    | _ => none

/-- polars `Series.quantile(q)` with its default `"nearest"` interpolation:
drop nulls, sort, and take the element at index `round(q * (n - 1))`.
polars evaluates this over `f64`; the model computes exactly over `ℚ`. -/
def seriesQuantileNearest (xs : List ℚ) (q : ℚ) : Option ℚ :=
  match xs with
  | [] => none
  | _ =>
    (insertionSort (fun a b => a ≤ b) xs).get?
      (roundHalfUp (q * ((xs.length : ℚ) - 1))).toNat

/-- Model of `pl.col("amount") < bound` against an optional scalar bound (a `None`
bound, possible only for an all-null column, compares to null). -/
def cellLtBound (c : Cell) (bound : Option ℚ) : Option Bool :=
  match bound, c with
  | some b, Cell.num q => some (decide (q < b))
  | _, _ => none

/-- Model of `pl.col("amount") > bound` against an optional scalar bound. -/
def cellGtBound (c : Cell) (bound : Option ℚ) : Option Bool :=
  match bound, c with
  | some b, Cell.num q => some (decide (q > b))
  | _, _ => none

/-- The quantile the percentile method uses for its lower bound
(outliers.py line 299): `(100 - threshold) / 2`. -/
def percentileLower (v : OutlierDetectionValidator) : ℚ :=
  (100 - v.threshold) / 2

/-- The quantile the percentile method uses for its upper bound
(outliers.py line 300): `100 - lower_percentile`. -/
def percentileUpper (v : OutlierDetectionValidator) : ℚ :=
  100 - percentileLower v

/-- The row indices kept by the percentile outlier filter
(outliers.py lines 302-308). -/
def percentileOutlierRows (v : OutlierDetectionValidator) (df : DataFrame) :
    List Nat :=
  let amounts := dfAmounts df
  let lower_bound := seriesQuantileNearest amounts (percentileLower v / 100)
  let upper_bound := seriesQuantileNearest amounts (percentileUpper v / 100)
  (List.range df.height).filter fun i =>
    (kOr (cellLtBound (df.cell "amount" i) lower_bound)
      (cellGtBound (df.cell "amount" i) upper_bound)).getD false

/-- Fixed-point decimal rendering of a rational, standing in for Python
`f"{x:.Nf}"` (rounding-mode subtleties of binary floats are not
reproduced; no theorem depends on message text). -/
def ratFixed (decimals : Nat) (q : ℚ) : String :=
  let scaled : Int := roundHalfUp (q * ((10 : ℚ) ^ decimals))
  let sign := if scaled < 0 then "-" else ""
  let a := scaled.natAbs
  let ip := a / 10 ^ decimals
  let fp := a % 10 ^ decimals
  if decimals = 0 then sign ++ toString ip
  else sign ++ toString ip ++ "." ++ ⟨padNum decimals fp⟩

/-- The warning line for one outlier row (outliers.py lines 332-335). -/
def percentileRowWarning (df : DataFrame) (i : Nat) : String :=
  let amt :=
    match df.cell "amount" i with
    | Cell.num q => ratFixed 2 q
    | c => c.pyStr
  s!"Row {i}: amount=" ++ amt

/-- Model of `OutlierDetectionValidator._detect_percentile`
(outliers.py lines 292-354). -/
def OutlierDetectionValidator.detectPercentile (v : OutlierDetectionValidator)
    (df : DataFrame) : ValidationResult :=
  let lower_percentile := percentileLower v
  let upper_percentile := percentileUpper v
  let amounts := dfAmounts df
  let lower_bound := seriesQuantileNearest amounts (lower_percentile / 100)
  let upper_bound := seriesQuantileNearest amounts (upper_percentile / 100)
  let outliers := percentileOutlierRows v df
  let baseMeta : List (String × PyValue) :=
    [("method", PyValue.str "percentile"),
     ("threshold", PyValue.num v.threshold),
     ("lower_percentile", PyValue.num lower_percentile),
     ("upper_percentile", PyValue.num upper_percentile)]
  if outliers.length = 0 then
    { is_valid := true
      validator_name := "outlier_detection"
      metadata := baseMeta ++
        [("lower_bound", (lower_bound.map PyValue.num).getD (PyValue.num 0)),
         ("upper_bound", (upper_bound.map PyValue.num).getD (PyValue.num 0)),
         ("outlier_count", PyValue.int 0)] }
  else
    let n := outliers.length
    let lp := ratFixed 1 lower_percentile
    let up := ratFixed 1 upper_percentile
    let headline :=
      s!"Found {n} outlier amounts using percentile method (outside " ++ lp
        ++ "th-" ++ up ++ "th percentile range)"
    let rows := (outliers.take 10).map fun i => percentileRowWarning df i
    let trunc := if n > 10 then [s!"... and " ++ toString (n - 10) ++ " more outliers"] else []
    { is_valid := true
      warnings := headline :: rows ++ trunc
      validator_name := "outlier_detection"
      metadata := baseMeta ++
        [("lower_bound", (lower_bound.map PyValue.num).getD (PyValue.num 0)),
         ("upper_bound", (upper_bound.map PyValue.num).getD (PyValue.num 0)),
         ("outlier_count", PyValue.int (Int.ofNat n)),
         ("outlier_indices", PyValue.list (outliers.map fun i =>
            PyValue.int (Int.ofNat i)))] }

/-- Model of `OutlierDetectionValidator.validate` (outliers.py lines 79-140)
specialized to a `method = "percentile"` validator. The missing-column
and fewer-than-two-rows guards are shared by every method; the `zscore`
and `iqr` dispatch branches involve `f64` square roots and are not
modelled here — every theorem below uses this function only with
`method = "percentile"`. -/
def OutlierDetectionValidator.validatePercentile
    (v : OutlierDetectionValidator) (df : DataFrame) : ValidationResult :=
  if "amount" ∉ df.columns then
    { is_valid := false
      errors := ["Cannot detect outliers: \x27amount\x27 field not found in DataFrame"]
      validator_name := "outlier_detection" }
  else if df.height < 2 then
    { is_valid := true
      validator_name := "outlier_detection"
      metadata :=
        [("method", PyValue.str v.method),
         ("threshold", PyValue.num v.threshold),
         ("total_rows", PyValue.int (Int.ofNat df.height))] }
  else
    v.detectPercentile df

/-- A DataFrame together with the dynamically injected
`_validation_metadata` attribute (transform.py line 140): `none` when the
attribute was never set. `df.clone()` yields a fresh polars object without
the attribute. -/
structure MetaDataFrame where
  df : DataFrame
  validation_metadata : Option (List (String × List ReportJson)) := none

/-- Model of `get_validation_reports` (transform.py lines 145-178). The fallback
path through `df.get_column("date").meta` always raises (polars `Series`
has no `meta` attribute) and is swallowed into `[]`. -/
def get_validation_reports (d : MetaDataFrame)
    (metadata_key : String := "validation_report") : List ReportJson :=
  match d.validation_metadata with
  | some m => (m.lookup metadata_key).getD []
  | none => []

/-- Model of `attach_validation_report` (transform.py lines 99-142): serialize the
report, read the reports stored under `metadata_key` on the input, append,
clone, and set `_validation_metadata` to a dict holding only
`metadata_key`. -/
def attach_validation_report (d : MetaDataFrame) (report : ValidationReport)
    (metadata_key : String := "validation_report") : MetaDataFrame :=
  let report_data := report.to_json
  let existing_reports := get_validation_reports d metadata_key
  let all_reports := existing_reports ++ [report_data]
  { df := d.df
    validation_metadata := some [(metadata_key, all_reports)] }

/-- Model of `ValidatingTransform` (transform.py lines 13-58), parametric in the
validator representation of its wrapped pipeline. -/
structure ValidatingTransform (V : Type) where
  pipeline : ValidationPipeline V
  fail_on_error : Bool := false
  metadata_key : String := "validation_report"

/-- Model of `ValidatingTransform.transform` (transform.py lines 60-96). -/
def ValidatingTransform.transform {V : Type}
    (validate : V → MetaDataFrame → ValidationResult)
    (t : ValidatingTransform V) (d : MetaDataFrame) (timestamp : DateTime) :
    Except PyExc MetaDataFrame :=
  let report := t.pipeline.run validate d timestamp
  if t.fail_on_error ∧ ¬report.is_valid then
    .error (.validationError
      ("Validation failed: " ++ toString report.failed ++ " of "
        ++ toString report.total_validators ++ " validators failed"))
  else
    .ok (attach_validation_report d report t.metadata_key)

/-- A CPython object holding an IR DataFrame: `ident` is the object
identity `id()` compares. A transform that returns its input unchanged
returns an object with the same `ident`. -/
structure IRObj where
  ident : Nat
  df : DataFrame
deriving DecidableEq, Repr

/-- A pipeline `Transform` collaborator (core/protocols.py): a type name
plus a `transform` operation that may raise. -/
structure Transform where
  typeName : String
  transform : IRObj → Except PyExc IRObj

/-- The step tag `f"transform_{i}"`. -/
def transformStepName (i : Nat) : String :=
  "transform_" ++ toString i

/-- The immutability-violation message of core/pipeline.py lines 145-147. -/
def immutabilityViolationMsg (i : Nat) : String :=
  "Transform " ++ toString i ++ " violated immutability requirement: "
    ++ "returned the same DataFrame instance instead of creating a new one"

/-- The wrapping message of core/pipeline.py line 159. -/
def transformStepWrapMsg (i : Nat) (e : PyExc) : String :=
  "Pipeline failed at transform step " ++ toString i ++ ": " ++ e.message

/-- The step context attached to transform-step `PipelineError`s
(core/pipeline.py lines 148-150 and 160-162). -/
def transformStepContext (i : Nat) (t : Transform) : PipelineContext :=
  { step := some (transformStepName i)
    transform_index := some i
    transform_type := some t.typeName }

/-- The transform loop of `execute_pipeline` (core/pipeline.py lines
135-163) starting at index `i`: remember `id(ir)`, apply the transform,
and fail with a step-tagged `PipelineError` when the identity is
unchanged. `TransformError` and `PipelineError` re-raise unmodified;
every other exception is wrapped once with the step context. -/
def applyTransformsFrom : List Transform → Nat → IRObj → Except PyExc IRObj
  | [], _, ir => .ok ir
  | t :: rest, i, ir =>
    match t.transform ir with
    | .ok ir' =>
      if ir'.ident = ir.ident then
        .error (.pipelineError (immutabilityViolationMsg i)
          (transformStepContext i t))
      else
        applyTransformsFrom rest (i + 1) ir'
    | .error (.transformError m) => .error (.transformError m)
    | .error (.pipelineError m c) => .error (.pipelineError m c)
    | .error e =>
      .error (.pipelineError (transformStepWrapMsg i e)
        (transformStepContext i t))

/-- Step 1 `try/except` (core/pipeline.py lines 113-122): a
`ReaderError` re-raises as-is; any other exception from the reader is
wrapped with the read-step context. -/
def readStep (input_path : String) :
    Except PyExc IRObj → Except PyExc IRObj
  | .ok ir => .ok ir
  | .error (.readerError m) => .error (.readerError m)
  | .error e =>
    .error (.pipelineError ("Pipeline failed at read step: " ++ e.message)
      { step := some "read", input_path := some input_path })

/-- Step 2 `try/except` (core/pipeline.py lines 125-132): only a
`ValidationError` is caught and wrapped; anything else propagates. -/
def validateReaderOutputStep (input_path : String) :
    Except PyExc IRObj → Except PyExc IRObj
  | .ok ir => .ok ir
  | .error (.validationError m) =>
    .error (.pipelineError
      ("Pipeline failed: Reader produced invalid IR: " ++ m)
      { step := some "validate_reader_output", input_path := some input_path })
  | .error e => .error e

/-- Step 4 `try/except` (core/pipeline.py lines 166-173). -/
def validateFinalStep (transform_count : Nat) :
    Except PyExc IRObj → Except PyExc IRObj
  | .ok ir => .ok ir
  | .error (.validationError m) =>
    .error (.pipelineError
      ("Pipeline failed: Final IR is invalid after transforms: " ++ m)
      { step := some "validate_final_ir"
        transform_count := some transform_count })
  | .error e => .error e

/-- Step 5 `try/except` (core/pipeline.py lines 176-185). -/
def writeStep (output_path : String) :
    Except PyExc Unit → Except PyExc Unit
  | .ok u => .ok u
  | .error (.writerError m) => .error (.writerError m)
  | .error e =>
    .error (.pipelineError ("Pipeline failed at write step: " ++ e.message)
      { step := some "write", output_path := some output_path })

/-- The body of `execute_pipeline` (core/pipeline.py lines 111-185): the
five steps in sequence, each with its own `try/except`; exceptions a step
does not catch propagate to the outer handler. -/
def executePipelineBody (reader_read : Except PyExc IRObj)
    (validate_ir : IRObj → Except PyExc IRObj)
    (writer_write : IRObj → Except PyExc Unit)
    (input_path output_path : String) (transforms : List Transform) :
    Except PyExc Unit :=
  (readStep input_path reader_read).bind fun ir =>
  (validateReaderOutputStep input_path (validate_ir ir)).bind fun ir =>
  (applyTransformsFrom transforms 0 ir).bind fun ir =>
  (validateFinalStep transforms.length (validate_ir ir)).bind fun ir =>
  writeStep output_path (writer_write ir)

/-- The outer handler of `execute_pipeline` (core/pipeline.py lines
187-198): `PipelineError` and other `FintranError`s re-raise unmodified;
anything else is wrapped with `step = "unknown"`. -/
def pipelineOuterHandler : Except PyExc Unit → Except PyExc Unit
  | .ok u => .ok u
  | .error e =>
    if e.isFintranError then .error e
    else
      .error (.pipelineError
        ("Pipeline failed with unexpected error: " ++ e.message)
        { step := some "unknown" })

/-- Model of `execute_pipeline` (core/pipeline.py lines 47-198). The reader call is
embedded as its outcome on the given input location; validator, writer
and transforms are the supplied collaborators. -/
def execute_pipeline (reader_read : Except PyExc IRObj)
    (validate_ir : IRObj → Except PyExc IRObj)
    (writer_write : IRObj → Except PyExc Unit)
    (input_path output_path : String) (transforms : List Transform) :
    Except PyExc Unit :=
  pipelineOuterHandler
    (executePipelineBody reader_read validate_ir writer_write input_path
      output_path transforms)

/-- Model of `DuplicateDetectionValidator` state after `__init__`
(quality/duplicates.py lines 45-68). -/
structure DuplicateDetectionValidator where
  fields : List String
  mode : String
deriving DecidableEq, Repr

/-- Model of `DuplicateDetectionValidator.__init__` (duplicates.py lines 45-68). -/
def DuplicateDetectionValidator.mk? (fields : List String)
    (mode : String := "exact") : Except PyExc DuplicateDetectionValidator :=
  if fields.isEmpty then
    .error (.valueError "fields parameter must contain at least one field name")
  else if mode ≠ "exact" ∧ mode ≠ "fuzzy" then
    .error (.valueError ("mode must be \x27exact\x27 or \x27fuzzy\x27, got: " ++ mode))
  else
    .ok ⟨fields, mode⟩

/-- Model of `MissingValueDetectionValidator` state after `__init__`
(quality/missing.py lines 43-57). -/
structure MissingValueDetectionValidator where
  fields : List String
deriving DecidableEq, Repr

/-- Model of `MissingValueDetectionValidator.__init__` (missing.py lines 43-57). -/
def MissingValueDetectionValidator.mk? (fields : List String) :
    Except PyExc MissingValueDetectionValidator :=
  if fields.isEmpty then
    .error (.valueError "fields parameter must contain at least one field name")
  else
    .ok ⟨fields⟩

/-- A validator instantiated by the declarative compiler: the union of the
`VALIDATOR_REGISTRY` classes (declarative.py lines 46-56). -/
inductive BuiltValidator where
  | positive_amounts (v : PositiveAmountsValidator)
  | currency_consistency (v : CurrencyConsistencyValidator)
  | date_range (v : DateRangeValidator)
  | duplicate_detection (v : DuplicateDetectionValidator)
  | missing_value_detection (v : MissingValueDetectionValidator)
  | outlier_detection (v : OutlierDetectionValidator)
deriving DecidableEq, Repr

/-- A validator `params` dict. -/
def Params := List (String × PyValue)

/-- Decode a Python list of strings. -/
def decodeStrList : PyValue → Option (List String)
  | PyValue.list xs => xs.mapM fun x =>
    match x with
    | PyValue.str s => some s
    | _ => none
  | _ => none

/-- Decode a Python number (int or float) to `ℚ`. -/
def decodeRat : PyValue → Option ℚ
  | PyValue.num q => some q
  | PyValue.int n => some (n : ℚ)
  | _ => none

/-- Model of `**params` keyword forwarding: every key must name a constructor
parameter, else Python raises `TypeError`. -/
def paramKeysOk (params : Params) (accepted : List String) : Bool :=
  params.all fun kv => kv.1 ∈ accepted

/-- Model of `PositiveAmountsValidator(**params)`: keyword decoding followed by the
`__init__` checks. Shape mismatches raise `TypeError` inside `re.compile`/
argument binding. -/
def positiveAmountsFromParams (params : Params) :
    Except PyExc PositiveAmountsValidator :=
  if ¬ paramKeysOk params ["account_patterns"] then
    .error (.typeError "unexpected keyword argument")
  else
    match params.lookup "account_patterns" with
    | none => .error (.typeError
        "missing 1 required positional argument: \x27account_patterns\x27")
    | some v =>
      match decodeStrList v with
      | none => .error (.typeError "account_patterns must be a list of strings")
      | some pats => PositiveAmountsValidator.mk? pats

/-- Model of `CurrencyConsistencyValidator(**params)`. -/
def currencyConsistencyFromParams (params : Params) :
    Except PyExc CurrencyConsistencyValidator :=
  if ¬ paramKeysOk params ["group_by"] then
    .error (.typeError "unexpected keyword argument")
  else
    match params.lookup "group_by" with
    | none => CurrencyConsistencyValidator.mk? GroupByArg.unspecified
    | some PyValue.null => CurrencyConsistencyValidator.mk? GroupByArg.explicitNone
    | some v =>
      match decodeStrList v with
      | none => .error (.typeError "group_by must be a list of strings or None")
      | some fs => CurrencyConsistencyValidator.mk? (GroupByArg.fields fs)

/-- Model of `DateRangeValidator(**params)`. -/
def dateRangeFromParams (params : Params) :
    Except PyExc DateRangeValidator :=
  if ¬ paramKeysOk params ["min_date", "max_date"] then
    .error (.typeError "unexpected keyword argument")
  else
    let decodeDate : Option PyValue → Except PyExc (Option PyDate) := fun x =>
      match x with
      | none => .ok none
      | some (PyValue.date d) => .ok (some d)
      | some _ => .error (.typeError "date bound must be a date")
    match decodeDate (params.lookup "min_date"),
        decodeDate (params.lookup "max_date") with
    | .ok mn, .ok mx => DateRangeValidator.mk? mn mx
    | .error e, _ => .error e
    | _, .error e => .error e

/-- Model of `DuplicateDetectionValidator(**params)`. -/
def duplicateDetectionFromParams (params : Params) :
    Except PyExc DuplicateDetectionValidator :=
  if ¬ paramKeysOk params ["fields", "mode"] then
    .error (.typeError "unexpected keyword argument")
  else
    match params.lookup "fields" with
    | none => .error (.typeError
        "missing 1 required positional argument: \x27fields\x27")
    | some v =>
      match decodeStrList v with
      | none => .error (.typeError "fields must be a list of strings")
      | some fs =>
        match params.lookup "mode" with
        | none => DuplicateDetectionValidator.mk? fs
        | some (PyValue.str m) => DuplicateDetectionValidator.mk? fs m
        | some _ =>
          -- a non-string mode fails the `mode not in ("exact", "fuzzy")`
          -- membership check, raising the same ValueError
          .error (.valueError "mode must be \x27exact\x27 or \x27fuzzy\x27")

/-- Model of `MissingValueDetectionValidator(**params)`. -/
def missingValueDetectionFromParams (params : Params) :
    Except PyExc MissingValueDetectionValidator :=
  if ¬ paramKeysOk params ["fields"] then
    .error (.typeError "unexpected keyword argument")
  else
    match params.lookup "fields" with
    | none => .error (.typeError
        "missing 1 required positional argument: \x27fields\x27")
    | some v =>
      match decodeStrList v with
      | none => .error (.typeError "fields must be a list of strings")
      | some fs => MissingValueDetectionValidator.mk? fs

/-- Model of `OutlierDetectionValidator(**params)`. -/
def outlierDetectionFromParams (params : Params) :
    Except PyExc OutlierDetectionValidator :=
  if ¬ paramKeysOk params ["method", "threshold"] then
    .error (.typeError "unexpected keyword argument")
  else
    let methodArg : Except PyExc String :=
      match params.lookup "method" with
      | none => .ok "zscore"
      | some (PyValue.str m) => .ok m
      | some _ =>
        -- a non-string method fails the membership check in __init__
        .error (.valueError "method must be \x27zscore\x27, \x27iqr\x27, or \x27percentile\x27")
    let thresholdArg : Except PyExc ℚ :=
      match params.lookup "threshold" with
      | none => .ok 3
      | some v =>
        match decodeRat v with
        | some q => .ok q
        | none => .error (.typeError
            "\x27<=\x27 not supported between threshold and int")
    match methodArg, thresholdArg with
    | .ok m, .ok th => OutlierDetectionValidator.mk? m th
    | .error e, _ => .error e
    | _, .error e => .error e

/-- Model of `VALIDATOR_REGISTRY` key set (declarative.py lines 46-56), canonical
names and aliases. -/
def VALIDATOR_REGISTRY_KEYS : List String :=
  ["positive_amounts", "currency_consistency", "date_range",
   "duplicate_detection", "detect_duplicates", "missing_value_detection",
   "detect_missing", "outlier_detection", "detect_outliers"]

/-- Model of `validator_class(**params)` for a registry key: the dispatch that
`_construct_validator` performs through `VALIDATOR_REGISTRY`
(declarative.py lines 371-379). -/
def constructByType (ty : String) (params : Params) :
    Except PyExc BuiltValidator :=
  if ty = "positive_amounts" then
    (positiveAmountsFromParams params).map BuiltValidator.positive_amounts
  else if ty = "currency_consistency" then
    (currencyConsistencyFromParams params).map BuiltValidator.currency_consistency
  else if ty = "date_range" then
    (dateRangeFromParams params).map BuiltValidator.date_range
  else if ty = "duplicate_detection" ∨ ty = "detect_duplicates" then
    (duplicateDetectionFromParams params).map BuiltValidator.duplicate_detection
  else if ty = "missing_value_detection" ∨ ty = "detect_missing" then
    (missingValueDetectionFromParams params).map BuiltValidator.missing_value_detection
  else if ty = "outlier_detection" ∨ ty = "detect_outliers" then
    (outlierDetectionFromParams params).map BuiltValidator.outlier_detection
  else
    -- unreachable once _validate_config_schema has accepted the document
    .error (.otherError ("unknown validator type: " ++ ty))

/-- Model of `ConfigurationSchemaError` with the keyword context fields used by
declarative.py. -/
structure ConfigurationSchemaError where
  msg : String
  validator_index : Option Nat := none
  validator_type : Option String := none
  field : Option String := none
  value : Option PyValue := none
  reason : Option String := none

/-- One entry of the `validators` list of the configuration document. The
shape checks of `_validate_validator_spec` that concern Python typing
(entry is a dict, `type` present and a string, `params` a dict if
present) are enforced by the types of this structure; `severity`, when
present, is kept as the raw string so its value check remains explicit.
A non-string severity value fails that check exactly like a wrong
string. -/
structure ValidatorSpec where
  type : String
  params : Option Params := none
  severity : Option String := none

/-- The configuration document (a dict with a `validators` list and an
optional `mode` string). -/
structure ValidationConfig where
  validators : List ValidatorSpec
  mode : Option String := none

/-- The severity enumeration check of `_validate_validator_spec`
(declarative.py lines 341-355). -/
def severityCheck (validator_type : String) (index : Nat) :
    Option String → Except ConfigurationSchemaError Unit
  | none => .ok ()
  | some severity =>
    if severity ≠ "error" ∧ severity ≠ "warning" then
      .error
        { msg := "Validator severity at index " ++ toString index
            ++ " must be \x27error\x27 or \x27warning\x27, got: " ++ severity
          validator_index := some index
          validator_type := some validator_type
          field := some "severity"
          value := some (PyValue.str severity)
          reason := some "Invalid severity value" }
    else
      .ok ()

/-- Model of `_validate_validator_spec` (declarative.py lines 269-355): registry
membership, then the severity enumeration. -/
def validateValidatorSpec (spec : ValidatorSpec) (index : Nat) :
    Except ConfigurationSchemaError Unit :=
  if spec.type ∉ VALIDATOR_REGISTRY_KEYS then
    let available := String.intercalate ", "
      (insertionSort (fun a b => a ≤ b) VALIDATOR_REGISTRY_KEYS)
    .error
      { msg := "Unknown validator type at index " ++ toString index ++ ": \x27"
          ++ spec.type ++ "\x27. Available types: " ++ available
        validator_index := some index
        validator_type := some spec.type
        field := some "type"
        reason := some "Validator type not found in registry" }
  else
    severityCheck spec.type index spec.severity

/-- The indexed loop over validator specs in `_validate_config_schema`
(declarative.py lines 252-254). -/
def validateSpecsFrom : List ValidatorSpec → Nat → Except ConfigurationSchemaError Unit
  | [], _ => .ok ()
  | s :: rest, idx =>
    match validateValidatorSpec s idx with
    | .error e => .error e
    | .ok _ => validateSpecsFrom rest (idx + 1)

/-- Model of `_validate_config_schema` (declarative.py lines 212-266): the
dict/list shape checks are enforced by `ValidationConfig`; the per-spec
loop and the mode enumeration remain. -/
def validateConfigSchema (config : ValidationConfig) :
    Except ConfigurationSchemaError Unit :=
  match validateSpecsFrom config.validators 0 with
  | .error e => .error e
  | .ok _ =>
    match config.mode with
    | none => .ok ()
    | some mode =>
      if mode ≠ "fail_fast" ∧ mode ≠ "continue" then
        .error
          { msg := "Invalid mode: " ++ mode
              ++ ". Must be \x27fail_fast\x27 or \x27continue\x27"
            field := some "mode"
            value := some (PyValue.str mode)
            reason := some "Invalid mode value" }
      else
        .ok ()

/-- Model of `ValidationMode(mode_str)`: the enum value lookup. -/
def modeOfString : String → Option ValidationMode
  | "fail_fast" => some ValidationMode.FAIL_FAST
  | "continue" => some ValidationMode.CONTINUE
  | _ => none

/-- Model of `_construct_validator` (declarative.py lines 358-407): dispatch on the
registry and re-raise `TypeError`/`ValueError` as
`ConfigurationSchemaError`; any other constructor exception escapes and
is wrapped by the `parse_config` loop (lines 193-206), folded into the
last branch here. -/
def construct_validator (spec : ValidatorSpec) (index : Nat) :
    Except ConfigurationSchemaError BuiltValidator :=
  let params := spec.params.getD []
  match constructByType spec.type params with
  | .ok v => .ok v
  | .error (.typeError m) =>
    .error
      { msg := "Invalid parameters for validator \x27" ++ spec.type
          ++ "\x27 at index " ++ toString index ++ ": " ++ m
        validator_index := some index
        validator_type := some spec.type
        field := some "params"
        value := some (PyValue.dict params)
        reason := some m }
  | .error (.valueError m) =>
    .error
      { msg := "Validator \x27" ++ spec.type ++ "\x27 at index "
          ++ toString index ++ " rejected parameters: " ++ m
        validator_index := some index
        validator_type := some spec.type
        field := some "params"
        value := some (PyValue.dict params)
        reason := some m }
  | .error e =>
    .error
      { msg := "Failed to construct validator at index " ++ toString index
          ++ " (type: " ++ spec.type ++ "): " ++ e.message
        validator_index := some index
        validator_type := some spec.type
        reason := some e.message }

/-- The indexed construction loop of `parse_config`
(declarative.py lines 186-206). -/
def constructValidatorsFrom :
    List ValidatorSpec → Nat → Except ConfigurationSchemaError (List BuiltValidator)
  | [], _ => .ok []
  | s :: rest, idx =>
    match construct_validator s idx with
    | .error e => .error e
    | .ok v => (constructValidatorsFrom rest (idx + 1)).map fun vs => v :: vs

/-- Model of `parse_config` (declarative.py lines 129-209): validate the schema,
resolve the mode (defaulting to `"continue"`), construct the validators
in order, and build the pipeline. -/
def parse_config (config : ValidationConfig) :
    Except ConfigurationSchemaError (ValidationPipeline BuiltValidator) :=
  match validateConfigSchema config with
  | .error e => .error e
  | .ok _ =>
    let mode_str := config.mode.getD "continue"
    match modeOfString mode_str with
    | none =>
      .error
        { msg := "Invalid mode: " ++ mode_str
            ++ ". Must be \x27fail_fast\x27 or \x27continue\x27"
          field := some "mode"
          value := some (PyValue.str mode_str)
          reason := some "Invalid mode value" }
    | some mode =>
      match constructValidatorsFrom config.validators 0 with
      | .error e => .error e
      | .ok validators => .ok { validators := validators, mode := mode }

/-- The flagged set as claim C7 states it: amounts outside the band
`[threshold/2-th percentile, (100 - threshold/2)-th percentile]`.
Modelled from the words of the claim, for comparison with
`percentileOutlierRows`. -/
def claimedPercentileBandRows (v : OutlierDetectionValidator)
    (df : DataFrame) : List Nat :=
  let amounts := dfAmounts df
  let lower_bound := seriesQuantileNearest amounts ((v.threshold / 2) / 100)
  let upper_bound := seriesQuantileNearest amounts ((100 - v.threshold / 2) / 100)
  (List.range df.height).filter fun i =>
    (kOr (cellLtBound (df.cell "amount" i) lower_bound)
      (cellGtBound (df.cell "amount" i) upper_bound)).getD false

/-- The flagged set of the amended claim: amounts outside the band
`[(100 - threshold)/2-th percentile, (100 + threshold)/2-th percentile]`. -/
def amendedPercentileBandRows (v : OutlierDetectionValidator)
    (df : DataFrame) : List Nat :=
  let amounts := dfAmounts df
  let lower_bound := seriesQuantileNearest amounts (((100 - v.threshold) / 2) / 100)
  let upper_bound := seriesQuantileNearest amounts (((100 + v.threshold) / 2) / 100)
  (List.range df.height).filter fun i =>
    (kOr (cellLtBound (df.cell "amount" i) lower_bound)
      (cellGtBound (df.cell "amount" i) upper_bound)).getD false

/-- Severity values `_validate_validator_spec` accepts (absent counts as
accepted: the field is optional). -/
def severityOK (s : Option String) : Prop :=
  s = none ∨ s = some "error" ∨ s = some "warning"

/-! ### Theorems -/

theorem digitChar_isDigit {d : Nat} (h : d < 10) :
    (Nat.digitChar d).isDigit = true := by
  interval_cases d <;> decide

theorem digitChar_toNat {d : Nat} (h : d < 10) :
    (Nat.digitChar d).toNat - 48 = d := by
  interval_cases d <;> decide

theorem readNum_padNum (w : Nat) : ∀ (acc n : Nat) (rest : List Char),
    readNum w acc (padNum w n ++ rest) = some (acc * 10 ^ w + n % 10 ^ w, rest) := by
  induction w with
  | zero => intro acc n rest; simp [readNum, padNum, Nat.mod_one]
  | succ w ih =>
    intro acc n rest
    have hd : n / 10 ^ w % 10 < 10 := Nat.mod_lt _ (by norm_num)
    simp only [padNum, List.cons_append, List.append_eq, readNum,
      digitChar_isDigit hd, if_true, digitChar_toNat hd]
    rw [ih]
    congr 2
    have hpow : 10 ^ (w + 1) = 10 ^ w * 10 := pow_succ 10 w
    rw [hpow, Nat.mod_mul]
    ring

theorem readNum_padNum_of_lt {w n : Nat} (h : n < 10 ^ w) (rest : List Char) :
    readNum w 0 (padNum w n ++ rest) = some (n, rest) := by
  rw [readNum_padNum]
  simp [Nat.mod_eq_of_lt h]

@[simp] theorem expectChar_cons (c : Char) (cs : List Char) :
    expectChar c (c :: cs) = some cs := by
  simp [expectChar]

theorem optBind_some {α β : Type} (a : α) (f : α → Option β) :
    Option.bind (some a) f = f a := rfl

set_option maxHeartbeats 1600000 in
theorem DateTime.fromisoformat_isoformat {t : DateTime} (h : t.Valid) :
    DateTime.fromisoformat t.isoformat = some t := by
  obtain ⟨y, mo, d, hh, mi, s, us⟩ := t
  have hv : 1 ≤ y ∧ y ≤ 9999 ∧ 1 ≤ mo ∧ mo ≤ 12 ∧ 1 ≤ d ∧ d ≤ 31 ∧
      hh ≤ 23 ∧ mi ≤ 59 ∧ s ≤ 59 ∧ us ≤ 999999 := h
  obtain ⟨hy1, hy, hmo1, hmo, hd1, hd, hhh, hmi, hs, hus⟩ := hv
  have hy4 : y < 10 ^ 4 := by norm_num; omega
  have hmo2 : mo < 10 ^ 2 := by norm_num; omega
  have hd2 : d < 10 ^ 2 := by norm_num; omega
  have hhh2 : hh < 10 ^ 2 := by norm_num; omega
  have hmi2 : mi < 10 ^ 2 := by norm_num; omega
  have hs2 : s < 10 ^ 2 := by norm_num; omega
  have hus6 : us < 10 ^ 6 := by norm_num; omega
  show parseIsoChars (isoChars ⟨y, mo, d, hh, mi, s, us⟩) = _
  by_cases h0 : us = 0
  · subst h0
    have e1 : isoChars ⟨y, mo, d, hh, mi, s, 0⟩ =
        padNum 4 y ++ '-' :: (padNum 2 mo ++ '-' :: (padNum 2 d ++ 'T' ::
          (padNum 2 hh ++ ':' :: (padNum 2 mi ++ ':' :: (padNum 2 s ++ []))))) := by
      simp [isoChars]
    rw [e1]
    unfold parseIsoChars
    rw [readNum_padNum_of_lt hy4]
    simp only [optBind_some, expectChar_cons]
    rw [readNum_padNum_of_lt hmo2]
    simp only [optBind_some, expectChar_cons]
    rw [readNum_padNum_of_lt hd2]
    simp only [optBind_some, expectChar_cons]
    rw [readNum_padNum_of_lt hhh2]
    simp only [optBind_some, expectChar_cons]
    rw [readNum_padNum_of_lt hmi2]
    simp only [optBind_some, expectChar_cons]
    rw [readNum_padNum_of_lt hs2]
    simp only [optBind_some]
    rfl
  · have e2 : isoChars ⟨y, mo, d, hh, mi, s, us⟩ =
        padNum 4 y ++ '-' :: (padNum 2 mo ++ '-' :: (padNum 2 d ++ 'T' ::
          (padNum 2 hh ++ ':' :: (padNum 2 mi ++ ':' ::
            (padNum 2 s ++ '.' :: padNum 6 us))))) := by
      simp [isoChars, if_neg h0]
    rw [e2]
    unfold parseIsoChars
    rw [readNum_padNum_of_lt hy4]
    simp only [optBind_some, expectChar_cons]
    rw [readNum_padNum_of_lt hmo2]
    simp only [optBind_some, expectChar_cons]
    rw [readNum_padNum_of_lt hd2]
    simp only [optBind_some, expectChar_cons]
    rw [readNum_padNum_of_lt hhh2]
    simp only [optBind_some, expectChar_cons]
    rw [readNum_padNum_of_lt hmi2]
    simp only [optBind_some, expectChar_cons]
    rw [readNum_padNum_of_lt hs2]
    simp only [optBind_some, if_neg (List.cons_ne_nil '.' (padNum 6 us)),
      expectChar_cons]
    rw [show padNum 6 us = padNum 6 us ++ ([] : List Char) from
      (List.append_nil _).symm]
    rw [readNum_padNum_of_lt hus6]
    simp only [optBind_some]
    rfl

theorem runValidatorsLoop_failFast {V DF : Type}
    (validate : V → DF → ValidationResult) (vs : List V) (df : DF) :
    runValidatorsLoop validate ValidationMode.FAIL_FAST vs df
      = takeThroughFirstError (vs.map fun v => validate v df) := by
  induction vs with
  | nil => rfl
  | cons v vs ih =>
    simp only [runValidatorsLoop, List.map_cons, takeThroughFirstError]
    by_cases h : (validate v df).has_errors
    · simp [h]
    · simp [h, ih]

theorem runValidatorsLoop_continue {V DF : Type}
    (validate : V → DF → ValidationResult) (vs : List V) (df : DF) :
    runValidatorsLoop validate ValidationMode.CONTINUE vs df
      = vs.map fun v => validate v df := by
  induction vs with
  | nil => rfl
  | cons v vs ih =>
    simp only [runValidatorsLoop, List.map_cons]
    simp [ih]

/-- C1: for every dataset and validator list, `ValidationPipeline.run` in
FAIL_FAST mode invokes the validators in declared order and stops right
after the first Result with errors, so the Report holds exactly the
Results up to and including that one; in CONTINUE mode it holds one
Result per validator. In particular, for validators `[Fail, Pass]`
FAIL_FAST yields exactly the one failing Result and CONTINUE yields
both. -/
theorem C1_pipeline_modes :
    ∀ (DF : Type) (vs : List (DF → ValidationResult)) (df : DF)
      (ts : DateTime),
      (ValidationPipeline.run (fun v df => v df)
          ⟨vs, ValidationMode.FAIL_FAST⟩ df ts).results
        = takeThroughFirstError (vs.map fun v => v df)
      ∧ (ValidationPipeline.run (fun v df => v df)
          ⟨vs, ValidationMode.CONTINUE⟩ df ts).results
        = (vs.map fun v => v df)
      ∧ (ValidationPipeline.run (fun v df => v df)
          ⟨[fun _ => { is_valid := false, errors := ["boom"] },
            fun _ => { is_valid := true }],
            ValidationMode.FAIL_FAST⟩ df ts).results
        = [{ is_valid := false, errors := ["boom"] }]
      ∧ (ValidationPipeline.run (fun v df => v df)
          ⟨[fun _ => { is_valid := false, errors := ["boom"] },
            fun _ => { is_valid := true }],
            ValidationMode.CONTINUE⟩ df ts).results
        = [{ is_valid := false, errors := ["boom"] },
           { is_valid := true }] := by
  intro DF vs df ts
  refine ⟨?_, ?_, rfl, rfl⟩
  · cases vs with
    | nil => rfl
    | cons v vs =>
      simp [ValidationPipeline.run, runValidatorsLoop_failFast]
  · cases vs with
    | nil => rfl
    | cons v vs =>
      simp [ValidationPipeline.run, runValidatorsLoop_continue]

theorem countP_bool_split {α : Type} (p : α → Bool) (l : List α) :
    l.countP p + l.countP (fun a => !(p a)) = l.length := by
  induction l with
  | nil => simp
  | cons a l ih =>
    by_cases h : p a <;> simp [List.countP_cons, h] <;> omega

/-- C2: every Report produced by `ValidationPipeline.run` and every Report
produced by `create_report` satisfies `total_validators == len(results)`,
`passed == count(r.is_valid)`, `failed == total - passed`, and
`warnings_count == sum(len(r.warnings))`. -/
theorem C2_report_arithmetic :
    ∀ (V DF : Type) (validate : V → DF → ValidationResult)
      (p : ValidationPipeline V) (df : DF) (ts : DateTime)
      (results : List ValidationResult),
      ((p.run validate df ts).total_validators
          = Int.ofNat (p.run validate df ts).results.length
        ∧ (p.run validate df ts).passed
          = Int.ofNat ((p.run validate df ts).results.countP fun r => r.is_valid)
        ∧ (p.run validate df ts).failed
          = (p.run validate df ts).total_validators - (p.run validate df ts).passed
        ∧ (p.run validate df ts).warnings_count
          = Int.ofNat ((p.run validate df ts).results.map
              fun r => r.warnings.length).sum)
      ∧ ((create_report results ts).total_validators
          = Int.ofNat (create_report results ts).results.length
        ∧ (create_report results ts).passed
          = Int.ofNat ((create_report results ts).results.countP
              fun r => r.is_valid)
        ∧ (create_report results ts).failed
          = (create_report results ts).total_validators
              - (create_report results ts).passed
        ∧ (create_report results ts).warnings_count
          = Int.ofNat ((create_report results ts).results.map
              fun r => r.warnings.length).sum) := by
  intro V DF validate p df ts results
  constructor
  · unfold ValidationPipeline.run
    by_cases h : p.validators.length = 0
    · rw [if_pos h]
      exact ⟨rfl, rfl, rfl, rfl⟩
    · rw [if_neg h]
      dsimp only
      refine ⟨rfl, rfl, ?_, rfl⟩
      have hs := countP_bool_split (fun r => r.is_valid)
        (runValidatorsLoop validate p.mode p.validators df)
      simp only [Int.ofNat_eq_natCast]
      omega
  · unfold create_report
    dsimp only
    refine ⟨rfl, rfl, ?_, rfl⟩
    have hs := countP_bool_split (fun r => r.is_valid) results
    simp only [Int.ofNat_eq_natCast]
    omega

theorem resultJson_round_trip (l : List ValidationResult) :
    (l.map fun res =>
        ({ validator_name := res.validator_name, is_valid := res.is_valid,
           errors := res.errors, warnings := res.warnings,
           metadata := res.metadata } : ResultJson)).map
      (fun rj =>
        ({ validator_name := rj.validator_name, is_valid := rj.is_valid,
           errors := rj.errors, warnings := rj.warnings,
           metadata := rj.metadata } : ValidationResult)) = l := by
  induction l with
  | nil => rfl
  | cons a l ih =>
    simp only [List.map_cons, ih]

/-- C3: `ValidationReport.from_json(report.to_json())` reproduces a Report
with identical summary counts, identical result contents (per result the
validator_name, is_valid, errors, warnings, metadata), and an equal
timestamp — the round-trip is lossless for every field, for any report
whose timestamp satisfies the `datetime` field invariants. -/
theorem C3_report_json_round_trip (r : ValidationReport)
    (h : r.timestamp.Valid) :
    ValidationReport.from_json r.to_json = some r := by
  obtain ⟨results, ts, tv, pd, fd, wc⟩ := r
  have hts : DateTime.fromisoformat ts.isoformat = some ts :=
    DateTime.fromisoformat_isoformat h
  simp only [ValidationReport.to_json, ValidationReport.from_json]
  rw [hts]
  simp only [Option.map_some']
  rw [resultJson_round_trip]

/-- Witness for C3 at a concrete report. -/
theorem C3_report_json_round_trip_witness :
    (⟨[⟨true, [], ["w1"], "v1", []⟩, ⟨false, ["e1"], [], "v2", []⟩],
        ⟨2024, 1, 15, 10, 30, 0, 123456⟩, 2, 1, 1, 1⟩ :
        ValidationReport).timestamp.Valid
    ∧ ValidationReport.from_json
        (ValidationReport.to_json
          ⟨[⟨true, [], ["w1"], "v1", []⟩, ⟨false, ["e1"], [], "v2", []⟩],
            ⟨2024, 1, 15, 10, 30, 0, 123456⟩, 2, 1, 1, 1⟩)
      = some ⟨[⟨true, [], ["w1"], "v1", []⟩, ⟨false, ["e1"], [], "v2", []⟩],
          ⟨2024, 1, 15, 10, 30, 0, 123456⟩, 2, 1, 1, 1⟩ :=
  ⟨by decide, C3_report_json_round_trip _ (by decide)⟩

theorem excBind_ok {ε α β : Type} (a : α) (f : α → Except ε β) :
    (Except.ok a : Except ε α).bind f = f a := rfl

theorem excBind_error {ε α β : Type} (e : ε) (f : α → Except ε β) :
    (Except.error e : Except ε α).bind f = Except.error e := rfl

theorem applyTransformsFrom_append (pre rest : List Transform) :
    ∀ (k : Nat) (ir ir2 : IRObj), applyTransformsFrom pre k ir = .ok ir2 →
      applyTransformsFrom (pre ++ rest) k ir
        = applyTransformsFrom rest (k + pre.length) ir2 := by
  induction pre with
  | nil =>
    intro k ir ir2 hok
    simp only [applyTransformsFrom] at hok
    obtain rfl : ir = ir2 := by injection hok
    simp
  | cons t ts ih =>
    intro k ir ir2 hok
    rw [List.cons_append]
    cases htr : t.transform ir with
    | ok ir' =>
      simp only [applyTransformsFrom, htr] at hok ⊢
      by_cases hid : ir'.ident = ir.ident
      · rw [if_pos hid] at hok
        exact absurd hok (by simp)
      · rw [if_neg hid] at hok ⊢
        rw [ih (k + 1) ir' ir2 hok]
        congr 1
        simp only [List.length_cons]
        omega
    | error e =>
      cases e <;> simp only [applyTransformsFrom, htr] at hok <;>
        exact Except.noConfusion hok

/-- C4 counterexample: a `PipelineError` raised by the transform itself
is not wrapped with the step context — `except PipelineError: raise`
(core/pipeline.py lines 155-156) re-raises it unmodified, so the result
carries the transform error with its own context, which differs from the
step context the claim says every non-transform-category exception
receives. -/
theorem C4_counterexample_pipeline_error_passthrough :
    execute_pipeline (Except.ok ⟨0, ⟨[]⟩⟩)
        (fun ir : IRObj => (Except.ok ir : Except PyExc IRObj))
        (fun _ => Except.ok ()) "in.csv" "out.csv"
        [⟨"BadTransform", fun _ => Except.error
            (PyExc.pipelineError "inner failure" { step := some "custom" })⟩]
      = Except.error
          (PyExc.pipelineError "inner failure" { step := some "custom" })
    ∧ ({ step := some "custom" } : PipelineContext)
        ≠ transformStepContext 0
            ⟨"BadTransform", fun _ => Except.error
              (PyExc.pipelineError "inner failure" { step := some "custom" })⟩ :=
  ⟨rfl, by decide⟩

/-- C4 (amended): with execution reaching the transform at position
`i = pre.length` on dataset `df2`, (a) if the transform returns a dataset
with the same identity, `execute_pipeline` fails with the
immutability-violation `PipelineError` tagged `step = "transform_i"`, the
index and the transform type name, raised as-is rather than wrapped
again; (b) a `TransformError` raised by the transform passes through
unmodified; (c) a `PipelineError` raised by the transform also passes
through unmodified; (d) every other exception from the transform — all
remaining constructors of the exception model — is wrapped once with the
same step context. -/
theorem C4_transform_step_errors_amended
    (reader_read : Except PyExc IRObj)
    (validate_ir : IRObj → Except PyExc IRObj)
    (writer_write : IRObj → Except PyExc Unit)
    (input_path output_path : String)
    (pre post : List Transform) (t : Transform) (df0 df1 df2 : IRObj)
    (hr : reader_read = Except.ok df0)
    (hv : validate_ir df0 = Except.ok df1)
    (hpre : applyTransformsFrom pre 0 df1 = Except.ok df2) :
    (∀ df', t.transform df2 = Except.ok df' → df'.ident = df2.ident →
      execute_pipeline reader_read validate_ir writer_write input_path
          output_path (pre ++ t :: post)
        = Except.error (PyExc.pipelineError
            (immutabilityViolationMsg pre.length)
            (transformStepContext pre.length t)))
    ∧ (∀ m, t.transform df2 = Except.error (PyExc.transformError m) →
      execute_pipeline reader_read validate_ir writer_write input_path
          output_path (pre ++ t :: post)
        = Except.error (PyExc.transformError m))
    ∧ (∀ m c, t.transform df2 = Except.error (PyExc.pipelineError m c) →
      execute_pipeline reader_read validate_ir writer_write input_path
          output_path (pre ++ t :: post)
        = Except.error (PyExc.pipelineError m c))
    ∧ (∀ e : PyExc, (∀ m, e ≠ PyExc.transformError m) →
        (∀ m c, e ≠ PyExc.pipelineError m c) →
        t.transform df2 = Except.error e →
      execute_pipeline reader_read validate_ir writer_write input_path
          output_path (pre ++ t :: post)
        = Except.error (PyExc.pipelineError
            (transformStepWrapMsg pre.length e)
            (transformStepContext pre.length t))) := by
  subst hr
  have happ := applyTransformsFrom_append pre (t :: post) 0 df1 df2 hpre
  rw [Nat.zero_add] at happ
  have hbody : ∀ e : PyExc,
      applyTransformsFrom (pre ++ t :: post) 0 df1 = .error e →
      execute_pipeline (.ok df0) validate_ir writer_write input_path
          output_path (pre ++ t :: post)
        = pipelineOuterHandler (.error e) := by
    intro e htr
    unfold execute_pipeline executePipelineBody
    rw [show readStep input_path (Except.ok df0) = Except.ok df0 from rfl,
      excBind_ok, hv,
      show validateReaderOutputStep input_path (Except.ok df1)
        = Except.ok df1 from rfl,
      excBind_ok, htr, excBind_error]
  refine ⟨?_, ?_, ?_, ?_⟩
  · intro df' hok hid
    have hstep : applyTransformsFrom (t :: post) pre.length df2
        = Except.error (PyExc.pipelineError
            (immutabilityViolationMsg pre.length)
            (transformStepContext pre.length t)) := by
      simp only [applyTransformsFrom, hok]
      rw [if_pos hid]
    rw [hbody _ (happ.trans hstep)]
    rfl
  · intro m hok
    have hstep : applyTransformsFrom (t :: post) pre.length df2
        = Except.error (PyExc.transformError m) := by
      simp only [applyTransformsFrom, hok]
    rw [hbody _ (happ.trans hstep)]
    rfl
  · intro m c hok
    have hstep : applyTransformsFrom (t :: post) pre.length df2
        = Except.error (PyExc.pipelineError m c) := by
      simp only [applyTransformsFrom, hok]
    rw [hbody _ (happ.trans hstep)]
    rfl
  · intro e hnt hnp hok
    cases e with
    | transformError m => exact absurd rfl (hnt m)
    | pipelineError m c => exact absurd rfl (hnp m c)
    | typeError m =>
      have hstep : applyTransformsFrom (t :: post) pre.length df2
          = Except.error (PyExc.pipelineError
              (transformStepWrapMsg pre.length (PyExc.typeError m))
              (transformStepContext pre.length t)) := by
        simp only [applyTransformsFrom, hok]
      rw [hbody _ (happ.trans hstep)]
      rfl
    | valueError m =>
      have hstep : applyTransformsFrom (t :: post) pre.length df2
          = Except.error (PyExc.pipelineError
              (transformStepWrapMsg pre.length (PyExc.valueError m))
              (transformStepContext pre.length t)) := by
        simp only [applyTransformsFrom, hok]
      rw [hbody _ (happ.trans hstep)]
      rfl
    | readerError m =>
      have hstep : applyTransformsFrom (t :: post) pre.length df2
          = Except.error (PyExc.pipelineError
              (transformStepWrapMsg pre.length (PyExc.readerError m))
              (transformStepContext pre.length t)) := by
        simp only [applyTransformsFrom, hok]
      rw [hbody _ (happ.trans hstep)]
      rfl
    | writerError m =>
      have hstep : applyTransformsFrom (t :: post) pre.length df2
          = Except.error (PyExc.pipelineError
              (transformStepWrapMsg pre.length (PyExc.writerError m))
              (transformStepContext pre.length t)) := by
        simp only [applyTransformsFrom, hok]
      rw [hbody _ (happ.trans hstep)]
      rfl
    | validationError m =>
      have hstep : applyTransformsFrom (t :: post) pre.length df2
          = Except.error (PyExc.pipelineError
              (transformStepWrapMsg pre.length (PyExc.validationError m))
              (transformStepContext pre.length t)) := by
        simp only [applyTransformsFrom, hok]
      rw [hbody _ (happ.trans hstep)]
      rfl
    | fintranError m =>
      have hstep : applyTransformsFrom (t :: post) pre.length df2
          = Except.error (PyExc.pipelineError
              (transformStepWrapMsg pre.length (PyExc.fintranError m))
              (transformStepContext pre.length t)) := by
        simp only [applyTransformsFrom, hok]
      rw [hbody _ (happ.trans hstep)]
      rfl
    | otherError m =>
      have hstep : applyTransformsFrom (t :: post) pre.length df2
          = Except.error (PyExc.pipelineError
              (transformStepWrapMsg pre.length (PyExc.otherError m))
              (transformStepContext pre.length t)) := by
        simp only [applyTransformsFrom, hok]
      rw [hbody _ (happ.trans hstep)]
      rfl

/-- Witness for the amended C4 at a concrete pipeline: an
identity-returning transform triggers the immutability error, and a
transform raising `ValueError` has it wrapped once with the step
context. -/
theorem C4_transform_step_errors_amended_witness :
    (Except.ok (⟨0, ⟨[]⟩⟩ : IRObj) : Except PyExc IRObj)
        = Except.ok (⟨0, ⟨[]⟩⟩ : IRObj)
    ∧ (fun ir : IRObj => (Except.ok ir : Except PyExc IRObj)) ⟨0, ⟨[]⟩⟩
        = Except.ok (⟨0, ⟨[]⟩⟩ : IRObj)
    ∧ applyTransformsFrom [] 0 ⟨0, ⟨[]⟩⟩ = Except.ok (⟨0, ⟨[]⟩⟩ : IRObj)
    ∧ execute_pipeline (Except.ok ⟨0, ⟨[]⟩⟩)
        (fun ir : IRObj => (Except.ok ir : Except PyExc IRObj))
        (fun _ => Except.ok ()) "in.csv" "out.csv"
        ([] ++ (⟨"IdentityTransform", fun ir => Except.ok ir⟩ : Transform) :: [])
      = Except.error (PyExc.pipelineError
          (immutabilityViolationMsg (List.length ([] : List Transform)))
          (transformStepContext (List.length ([] : List Transform))
            ⟨"IdentityTransform", fun ir => Except.ok ir⟩))
    ∧ execute_pipeline (Except.ok ⟨0, ⟨[]⟩⟩)
        (fun ir : IRObj => (Except.ok ir : Except PyExc IRObj))
        (fun _ => Except.ok ()) "in.csv" "out.csv"
        ([] ++ (⟨"FailingTransform",
            fun _ => Except.error (PyExc.valueError "bad value")⟩ : Transform) :: [])
      = Except.error (PyExc.pipelineError
          (transformStepWrapMsg (List.length ([] : List Transform))
            (PyExc.valueError "bad value"))
          (transformStepContext (List.length ([] : List Transform))
            ⟨"FailingTransform",
             fun _ => Except.error (PyExc.valueError "bad value")⟩)) :=
  ⟨rfl, rfl, rfl,
    (C4_transform_step_errors_amended (Except.ok ⟨0, ⟨[]⟩⟩)
        (fun ir => Except.ok ir) (fun _ => Except.ok ()) "in.csv" "out.csv"
        [] [] ⟨"IdentityTransform", fun ir => Except.ok ir⟩
        ⟨0, ⟨[]⟩⟩ ⟨0, ⟨[]⟩⟩ ⟨0, ⟨[]⟩⟩ rfl rfl rfl).1
      ⟨0, ⟨[]⟩⟩ rfl rfl,
    (C4_transform_step_errors_amended (Except.ok ⟨0, ⟨[]⟩⟩)
        (fun ir => Except.ok ir) (fun _ => Except.ok ()) "in.csv" "out.csv"
        [] [] ⟨"FailingTransform",
          fun _ => Except.error (PyExc.valueError "bad value")⟩
        ⟨0, ⟨[]⟩⟩ ⟨0, ⟨[]⟩⟩ ⟨0, ⟨[]⟩⟩ rfl rfl rfl).2.2.2
      (PyExc.valueError "bad value")
      (fun _ h => PyExc.noConfusion h)
      (fun _ _ h => PyExc.noConfusion h) rfl⟩

/-- C5 (code bug): the spec promises that a failing validation is always
expressed as data, never an exception — but
`CurrencyConsistencyValidator` in whole-dataset mode (`group_by=None`)
raises `TypeError` from `sorted(unique_currencies)` when the currency
column mixes nulls with strings, instead of returning a failing Result
(the grouped path maps nulls to `"NULL"` before sorting; the whole-frame
path forgot to). This theorem evaluates the embedded code at the failing
input. -/
theorem C5_whole_df_null_currency_raises :
    CurrencyConsistencyValidator.mk? GroupByArg.explicitNone
        = Except.ok ⟨none, true⟩
    ∧ CurrencyConsistencyValidator.validate ⟨none, true⟩
        ⟨[("date", [Cell.date ⟨2024, 1, 1⟩, Cell.date ⟨2024, 1, 2⟩]),
          ("account", [Cell.str "ACC1", Cell.str "ACC1"]),
          ("amount", [Cell.num 100, Cell.num 200]),
          ("currency", [Cell.null, Cell.str "USD"]),
          ("description", [Cell.null, Cell.null]),
          ("reference", [Cell.null, Cell.null])]⟩
      = Except.error (PyExc.typeError
          "\x27<\x27 not supported between instances of \x27NoneType\x27 and \x27str\x27") := by
  exact ⟨rfl, by with_unfolding_all rfl⟩

/-- C6 counterexample: with two configured grouping columns both absent,
`CurrencyConsistencyValidator.validate` returns a Result carrying one
error per missing column — two error strings, not the sole error the
claim asserts. -/
theorem C6_counterexample_two_missing_grouping_fields :
    CurrencyConsistencyValidator.mk? (GroupByArg.fields ["account", "description"])
        = Except.ok ⟨some ["account", "description"], false⟩
    ∧ CurrencyConsistencyValidator.validate
        ⟨some ["account", "description"], false⟩
        ⟨[("currency", [Cell.str "USD"])]⟩
      = Except.ok
          { is_valid := false
            errors :=
              ["Required grouping field \x27account\x27 not found in DataFrame",
               "Required grouping field \x27description\x27 not found in DataFrame"]
            validator_name := "CurrencyConsistencyValidator" }
    ∧ (["Required grouping field \x27account\x27 not found in DataFrame",
        "Required grouping field \x27description\x27 not found in DataFrame"] :
        List String).length ≠ 1 := by
  exact ⟨rfl, by with_unfolding_all rfl, by decide⟩

/-- C6 (amended): every business validator returns an immediate failing
Result when a required column is absent, without inspecting rows, with
exactly one error string per missing required column: the sign-constraint
and range-bound validators and the designated currency column
each yield a single error naming the column and validator, and the
grouped currency validator yields one error per absent grouping column. -/
theorem C6_missing_column_policy :
    (∀ (search : String → String → Bool) (p : PositiveAmountsValidator)
        (df : DataFrame), "account" ∉ df.columns →
      PositiveAmountsValidator.validate search p df
        = { is_valid := false
            errors := ["Required field \x27account\x27 not found in DataFrame"]
            validator_name := "PositiveAmountsValidator" })
    ∧ (∀ (search : String → String → Bool) (p : PositiveAmountsValidator)
        (df : DataFrame), "account" ∈ df.columns → "amount" ∉ df.columns →
      PositiveAmountsValidator.validate search p df
        = { is_valid := false
            errors := ["Required field \x27amount\x27 not found in DataFrame"]
            validator_name := "PositiveAmountsValidator" })
    ∧ (∀ (v : DateRangeValidator) (df : DataFrame), "date" ∉ df.columns →
      DateRangeValidator.validate v df
        = { is_valid := false
            errors := ["Required field \x27date\x27 not found in DataFrame"]
            validator_name := "DateRangeValidator" })
    ∧ (∀ (v : CurrencyConsistencyValidator) (df : DataFrame),
        "currency" ∉ df.columns →
      CurrencyConsistencyValidator.validate v df
        = Except.ok
            { is_valid := false
              errors := ["Required field \x27currency\x27 not found in DataFrame"]
              validator_name := "CurrencyConsistencyValidator" })
    ∧ (∀ (v : CurrencyConsistencyValidator) (df : DataFrame)
        (gb : List String), v.group_by = some gb →
        v.validate_whole_df = false → "currency" ∈ df.columns →
        gb.filter (fun f => f ∉ df.columns) ≠ [] →
      CurrencyConsistencyValidator.validate v df
        = Except.ok
            { is_valid := false
              errors := (gb.filter fun f => f ∉ df.columns).map fun f =>
                "Required grouping field \x27" ++ f ++ "\x27 not found in DataFrame"
              validator_name := "CurrencyConsistencyValidator" }) := by
  refine ⟨?_, ?_, ?_, ?_, ?_⟩
  · intro search p df h
    unfold PositiveAmountsValidator.validate
    rw [if_pos h]
  · intro search p df h1 h2
    unfold PositiveAmountsValidator.validate
    rw [if_neg (not_not_intro h1), if_pos h2]
  · intro v df h
    unfold DateRangeValidator.validate
    rw [if_pos h]
  · intro v df h
    unfold CurrencyConsistencyValidator.validate
    rw [if_pos h]
  · intro v df gb hgb hwhole hcur hmiss
    unfold CurrencyConsistencyValidator.validate
    rw [if_neg (not_not_intro hcur)]
    rw [hwhole]
    rw [if_neg Bool.false_ne_true]
    rw [hgb]
    simp only [Option.getD_some]
    rw [if_pos hmiss]

/-- Witness for C6 at concrete datasets with absent columns. -/
theorem C6_missing_column_policy_witness :
    ("account" ∉ (⟨[("amount", [Cell.num 1])]⟩ : DataFrame).columns)
    ∧ PositiveAmountsValidator.validate (fun _ _ => false) ⟨["^4"]⟩
        ⟨[("amount", [Cell.num 1])]⟩
      = { is_valid := false
          errors := ["Required field \x27account\x27 not found in DataFrame"]
          validator_name := "PositiveAmountsValidator" } :=
  ⟨by decide,
    C6_missing_column_policy.1 (fun _ _ => false) ⟨["^4"]⟩
      ⟨[("amount", [Cell.num 1])]⟩ (by decide)⟩

/-- C7 counterexample: with amounts `1..10` and threshold `20`, the code
flags the eight rows outside the `[40th, 60th]`-percentile band
`[5, 6]`, while the band the claim states, `[threshold/2, 100 - threshold/2]` =
`[10th, 90th]` percentile = `[2, 9]` would flag only the two extreme
rows — the flagged sets differ. -/
theorem C7_counterexample_percentile_band :
    OutlierDetectionValidator.mk? "percentile" 20
        = Except.ok ⟨"percentile", 20⟩
    ∧ percentileOutlierRows ⟨"percentile", 20⟩
        ⟨[("amount",
           [Cell.num 1, Cell.num 2, Cell.num 3, Cell.num 4, Cell.num 5,
            Cell.num 6, Cell.num 7, Cell.num 8, Cell.num 9, Cell.num 10])]⟩
      = [0, 1, 2, 3, 6, 7, 8, 9]
    ∧ claimedPercentileBandRows ⟨"percentile", 20⟩
        ⟨[("amount",
           [Cell.num 1, Cell.num 2, Cell.num 3, Cell.num 4, Cell.num 5,
            Cell.num 6, Cell.num 7, Cell.num 8, Cell.num 9, Cell.num 10])]⟩
      = [0, 9]
    ∧ ([0, 1, 2, 3, 6, 7, 8, 9] : List Nat) ≠ [0, 9] := by
  refine ⟨by with_unfolding_all rfl, by with_unfolding_all decide,
    by with_unfolding_all decide, by decide⟩

/-- C7 (amended): the percentile method flags exactly the rows whose
amount lies outside the symmetric band
`[(100 - threshold)/2-th percentile, (100 + threshold)/2-th percentile]`,
and for a dataset with the amount column present and at least two rows
`validate` reaches exactly this detection. -/
theorem C7_percentile_band_amended :
    (∀ (v : OutlierDetectionValidator) (df : DataFrame),
      percentileOutlierRows v df = amendedPercentileBandRows v df)
    ∧ (∀ (v : OutlierDetectionValidator) (df : DataFrame),
      "amount" ∈ df.columns → ¬ df.height < 2 →
      OutlierDetectionValidator.validatePercentile v df
        = v.detectPercentile df) := by
  constructor
  · intro v df
    unfold percentileOutlierRows amendedPercentileBandRows
    have hl : percentileLower v = (100 - v.threshold) / 2 := rfl
    have hu : percentileUpper v = (100 + v.threshold) / 2 := by
      unfold percentileUpper percentileLower
      ring
    rw [hl, hu]
  · intro v df h1 h2
    unfold OutlierDetectionValidator.validatePercentile
    rw [if_neg (not_not_intro h1), if_neg h2]

/-- Witness for the amended C7 theorem at a concrete two-row dataset. -/
theorem C7_percentile_band_amended_witness :
    ("amount" ∈ (⟨[("amount", [Cell.num 1, Cell.num 2])]⟩ :
        DataFrame).columns)
    ∧ ¬ (⟨[("amount", [Cell.num 1, Cell.num 2])]⟩ : DataFrame).height < 2
    ∧ OutlierDetectionValidator.validatePercentile ⟨"percentile", 95⟩
        ⟨[("amount", [Cell.num 1, Cell.num 2])]⟩
      = OutlierDetectionValidator.detectPercentile ⟨"percentile", 95⟩
          ⟨[("amount", [Cell.num 1, Cell.num 2])]⟩ :=
  ⟨by decide, by decide,
    C7_percentile_band_amended.2 ⟨"percentile", 95⟩
      ⟨[("amount", [Cell.num 1, Cell.num 2])]⟩ (by decide) (by decide)⟩

/-- C8: attaching a report under key `B` to a dataset already carrying
reports under a different key replaces the whole metadata attribute with
a map holding only the appended report list of `B`; the reports of the prior key
are gone from the result. Appending without loss holds only for the key
being written. `ValidatingTransform.transform` (not fail-on-error) goes
through exactly this attach. -/
theorem C8_attach_replaces_other_keys :
    ∀ (d : MetaDataFrame) (m : List (String × List ReportJson))
      (report : ValidationReport) (A B : String) (ts : DateTime),
      d.validation_metadata = some m → A ≠ B →
      ((attach_validation_report d report B).validation_metadata
          = some [(B, ((m.lookup B).getD []) ++ [report.to_json])]
        ∧ get_validation_reports (attach_validation_report d report B) A = []
        ∧ get_validation_reports (attach_validation_report d report A) A
            = get_validation_reports d A ++ [report.to_json]
        ∧ ∀ (V : Type) (validate : V → MetaDataFrame → ValidationResult)
            (t : ValidatingTransform V),
            t.metadata_key = B → t.fail_on_error = false →
            ValidatingTransform.transform validate t d ts
              = Except.ok (attach_validation_report d
                  (t.pipeline.run validate d ts) B)) := by
  intro d m report A B ts hm hAB
  have hbe : (A == B) = false := beq_eq_false_iff_ne.mpr hAB
  refine ⟨?_, ?_, ?_, ?_⟩
  · simp only [attach_validation_report, get_validation_reports, hm]
  · simp only [attach_validation_report, get_validation_reports, hm,
      List.lookup, hbe, Option.getD_none]
  · simp only [attach_validation_report, get_validation_reports, hm,
      List.lookup, beq_self_eq_true, Option.getD_some]
  · intro V validate t hkey hfoe
    simp [ValidatingTransform.transform, hfoe, hkey]

/-- Witness for C8 at a concrete dataset carrying reports under key
`"a"` and a fresh report attached under key `"b"`. -/
theorem C8_attach_replaces_other_keys_witness :
    ((⟨⟨[]⟩, some [("a", [])]⟩ : MetaDataFrame).validation_metadata
        = some [("a", [])])
    ∧ ("a" ≠ "b")
    ∧ (attach_validation_report ⟨⟨[]⟩, some [("a", [])]⟩
          ⟨[], ⟨2024, 1, 1, 0, 0, 0, 0⟩, 0, 0, 0, 0⟩ "b").validation_metadata
        = some [("b",
            ((([("a", [])] : List (String × List ReportJson)).lookup "b").getD [])
              ++ [ValidationReport.to_json
                    ⟨[], ⟨2024, 1, 1, 0, 0, 0, 0⟩, 0, 0, 0, 0⟩])] :=
  ⟨rfl, by decide,
    (C8_attach_replaces_other_keys ⟨⟨[]⟩, some [("a", [])]⟩ [("a", [])]
      ⟨[], ⟨2024, 1, 1, 0, 0, 0, 0⟩, 0, 0, 0, 0⟩ "a" "b"
      ⟨2024, 1, 1, 0, 0, 0, 0⟩ rfl (by decide)).1⟩

theorem kAnd_eq_some_true (a b : Option Bool) :
    kAnd a b = some true ↔ a = some true ∧ b = some true := by
  rcases a with _ | (_ | _) <;> rcases b with _ | (_ | _) <;> simp [kAnd]

theorem optGetD_false_eq_true (o : Option Bool) :
    (o.getD false = true) ↔ o = some true := by
  rcases o with _ | (_ | _) <;> simp

/-- C10: `PositiveAmountsValidator` never reports a row with a null
amount (the filter keeps only rows where `amount <= 0` is true, and a
null amount makes that comparison null); a dataset whose only
pattern-matching rows all have null amounts yields a passing Result. -/
theorem C10_null_amounts_pass :
    ∀ (search : String → String → Bool) (v : PositiveAmountsValidator)
      (df : DataFrame),
      (∀ i, df.cell "amount" i = Cell.null →
        i ∉ positiveAmountsViolations search v df)
      ∧ ("account" ∈ df.columns → "amount" ∈ df.columns →
        (∀ i, i < df.height →
          accountMask search v.account_patterns (df.cell "account" i)
            = some true →
          df.cell "amount" i = Cell.null) →
        PositiveAmountsValidator.validate search v df
          = { is_valid := true
              validator_name := "PositiveAmountsValidator" }) := by
  intro search v df
  constructor
  · intro i hnull hmem
    unfold positiveAmountsViolations at hmem
    rw [List.mem_filter] at hmem
    obtain ⟨-, hpred⟩ := hmem
    rw [hnull] at hpred
    rw [show cellLeZero Cell.null = none from rfl] at hpred
    rw [optGetD_false_eq_true, kAnd_eq_some_true] at hpred
    exact Option.noConfusion hpred.2
  · intro hacc hamt hnull
    have hviol : positiveAmountsViolations search v df = [] := by
      unfold positiveAmountsViolations
      rw [List.filter_eq_nil_iff]
      intro i hi
      rw [List.mem_range] at hi
      intro hpred
      rw [optGetD_false_eq_true, kAnd_eq_some_true] at hpred
      have hn := hnull i hi hpred.1
      rw [hn] at hpred
      exact Option.noConfusion hpred.2
    unfold PositiveAmountsValidator.validate
    rw [if_neg (not_not_intro hacc), if_neg (not_not_intro hamt), hviol]
    rfl

/-- Witness for C10 at a one-row dataset whose matching row has a null
amount. -/
theorem C10_null_amounts_pass_witness :
    ("account" ∈ (⟨[("account", [Cell.str "4001"]), ("amount", [Cell.null])]⟩ :
        DataFrame).columns)
    ∧ ("amount" ∈ (⟨[("account", [Cell.str "4001"]), ("amount", [Cell.null])]⟩ :
        DataFrame).columns)
    ∧ (∀ i, i < (⟨[("account", [Cell.str "4001"]), ("amount", [Cell.null])]⟩ :
          DataFrame).height →
        accountMask (fun _ _ => true) ["^4"]
            ((⟨[("account", [Cell.str "4001"]), ("amount", [Cell.null])]⟩ :
              DataFrame).cell "account" i) = some true →
        (⟨[("account", [Cell.str "4001"]), ("amount", [Cell.null])]⟩ :
          DataFrame).cell "amount" i = Cell.null)
    ∧ PositiveAmountsValidator.validate (fun _ _ => true) ⟨["^4"]⟩
        ⟨[("account", [Cell.str "4001"]), ("amount", [Cell.null])]⟩
      = { is_valid := true, validator_name := "PositiveAmountsValidator" } :=
  ⟨by decide, by decide, by decide,
    (C10_null_amounts_pass (fun _ _ => true) ⟨["^4"]⟩
      ⟨[("account", [Cell.str "4001"]), ("amount", [Cell.null])]⟩).2
      (by decide) (by decide) (by decide)⟩

theorem severityCheck_ok (t : String) (i : Nat) (sev : Option String)
    (h : severityOK sev) : severityCheck t i sev = Except.ok () := by
  rcases h with rfl | rfl | rfl <;> rfl

theorem validateValidatorSpec_congr (s1 s2 : ValidatorSpec) (i : Nat)
    (hty : s1.type = s2.type) (h1 : severityOK s1.severity)
    (h2 : severityOK s2.severity) :
    validateValidatorSpec s1 i = validateValidatorSpec s2 i := by
  unfold validateValidatorSpec
  rw [hty]
  by_cases hreg : s2.type ∉ VALIDATOR_REGISTRY_KEYS
  · rw [if_pos hreg, if_pos hreg]
  · rw [if_neg hreg, if_neg hreg,
      severityCheck_ok _ _ _ h1, severityCheck_ok _ _ _ h2]

theorem validateSpecsFrom_congr :
    ∀ (l1 l2 : List ValidatorSpec) (k : Nat),
      List.Forall₂ (fun s1 s2 => s1.type = s2.type ∧ s1.params = s2.params
        ∧ severityOK s1.severity ∧ severityOK s2.severity) l1 l2 →
      validateSpecsFrom l1 k = validateSpecsFrom l2 k := by
  intro l1 l2 k h
  induction h generalizing k with
  | nil => rfl
  | @cons a b l1' l2' hab htail ih =>
    simp only [validateSpecsFrom]
    rw [validateValidatorSpec_congr a b k hab.1 hab.2.2.1 hab.2.2.2]
    cases hv : validateValidatorSpec b k with
    | error e => rfl
    | ok u => exact ih (k + 1)

theorem construct_validator_params_only (t : String) (p : Option Params)
    (sev1 sev2 : Option String) (i : Nat) :
    construct_validator ⟨t, p, sev1⟩ i = construct_validator ⟨t, p, sev2⟩ i :=
  rfl

theorem constructValidatorsFrom_congr :
    ∀ (l1 l2 : List ValidatorSpec) (k : Nat),
      List.Forall₂ (fun s1 s2 => s1.type = s2.type ∧ s1.params = s2.params)
        l1 l2 →
      constructValidatorsFrom l1 k = constructValidatorsFrom l2 k := by
  intro l1 l2 k h
  induction h generalizing k with
  | nil => rfl
  | @cons a b l1' l2' hab htail ih =>
    simp only [constructValidatorsFrom]
    have hc : construct_validator a k = construct_validator b k := by
      obtain ⟨t1, p1, sv1⟩ := a
      obtain ⟨t2, p2, sv2⟩ := b
      have hty : t1 = t2 := hab.1
      have hp : p1 = p2 := hab.2
      subst hty
      subst hp
      exact construct_validator_params_only t1 p1 sv1 sv2 k
    rw [hc]
    cases hv : construct_validator b k with
    | error e => rfl
    | ok v => exact congrArg (Except.map fun vs => v :: vs) (ih (k + 1))

/-- C9: the per-validator `severity` field influences only schema
validation, never the constructed pipeline: two documents equal except
for (valid) severity values compile to equal pipelines, so every
downstream `run(dataset)` yields identical Results. -/
theorem C9_severity_noninterference :
    ∀ (c1 c2 : ValidationConfig),
      c1.mode = c2.mode →
      List.Forall₂ (fun s1 s2 => s1.type = s2.type ∧ s1.params = s2.params
        ∧ severityOK s1.severity ∧ severityOK s2.severity)
        c1.validators c2.validators →
      parse_config c1 = parse_config c2
      ∧ (∀ (DF : Type) (validate : BuiltValidator → DF → ValidationResult)
          (p1 p2 : ValidationPipeline BuiltValidator) (df : DF)
          (ts : DateTime),
          parse_config c1 = Except.ok p1 → parse_config c2 = Except.ok p2 →
          p1.run validate df ts = p2.run validate df ts) := by
  intro c1 c2 hmode hf
  have heq : parse_config c1 = parse_config c2 := by
    have hschema : validateConfigSchema c1 = validateConfigSchema c2 := by
      unfold validateConfigSchema
      rw [validateSpecsFrom_congr _ _ 0 hf, hmode]
    have hcons : constructValidatorsFrom c1.validators 0
        = constructValidatorsFrom c2.validators 0 := by
      refine constructValidatorsFrom_congr _ _ 0 (hf.imp ?_)
      intro a b hab
      exact ⟨hab.1, hab.2.1⟩
    unfold parse_config
    rw [hschema, hmode, hcons]
  refine ⟨heq, ?_⟩
  intro DF validate p1 p2 df ts h1 h2
  rw [h1, h2] at heq
  injection heq with heq'
  rw [heq']

/-- Witness for C9: two one-validator documents differing only in
severity (`"error"` vs `"warning"`) compile to the same pipeline. -/
theorem C9_severity_noninterference_witness :
    ((⟨[⟨"positive_amounts",
          some [("account_patterns", PyValue.list [PyValue.str "x"])],
          some "error"⟩], none⟩ : ValidationConfig).mode
      = (⟨[⟨"positive_amounts",
          some [("account_patterns", PyValue.list [PyValue.str "x"])],
          some "warning"⟩], none⟩ : ValidationConfig).mode)
    ∧ parse_config
        ⟨[⟨"positive_amounts",
           some [("account_patterns", PyValue.list [PyValue.str "x"])],
           some "error"⟩], none⟩
      = parse_config
          ⟨[⟨"positive_amounts",
             some [("account_patterns", PyValue.list [PyValue.str "x"])],
             some "warning"⟩], none⟩ :=
  ⟨rfl,
    (C9_severity_noninterference
      ⟨[⟨"positive_amounts",
         some [("account_patterns", PyValue.list [PyValue.str "x"])],
         some "error"⟩], none⟩
      ⟨[⟨"positive_amounts",
         some [("account_patterns", PyValue.list [PyValue.str "x"])],
         some "warning"⟩], none⟩
      rfl
      (List.Forall₂.cons
        ⟨rfl, rfl, Or.inr (Or.inl rfl), Or.inr (Or.inr rfl)⟩
        List.Forall₂.nil)).1⟩

end Fintran
